import Mathlib

/-!
# SmartMailbox firmware (src/main.cpp): device mode controller, button debounce
and notification throttle

Shallow embedding of the sketch. The global variables of the sketch, the pin and
radio state it drives and the persisted key-value store form one `State`; every
read of the outside world (a pin level, `millis()`, `WiFi.status()`, the result
of an SMTP call, a pending portal request) is an explicit input of the function
that performs the read. `ESP.restart()` does not return: a function that reaches
it yields `Outcome.restarted`, and nothing after it is executed.

Times given as inputs are real times in milliseconds since power-up (unbounded
naturals); what the code sees of them is `millis t = t % 2^32`, and its
`unsigned long` subtraction is `sub32`.
-/

namespace SmartMailbox

/-! ## Data model -/

/-- Digital pin level (`LOW` = 0, `HIGH` = 1). -/
inductive Level where
  | LOW
  | HIGH
  deriving DecidableEq, Repr

/-- Logical negation of an `int` holding a pin level (`!ledState`). -/
def Level.toggle : Level → Level
  | .LOW => .HIGH
  | .HIGH => .LOW

/-- Radio mode as set through `WiFi.mode` and read through `WiFi.getMode`. -/
inductive WifiMode where
  | WIFI_OFF
  | WIFI_STA
  | WIFI_AP
  deriving DecidableEq, Repr

/-- Content of the `Preferences` namespace "mailbox-creds": key/value pairs. -/
abbrev Prefs := List (String × String)

/-- Value of `preferences.getString(key, dflt)`. -/
def Prefs.getString : Prefs → String → String → String
  | [], _, dflt => dflt
  | (k, v) :: rest, key, dflt => if k = key then v else Prefs.getString rest key dflt

/-- Effect of `preferences.putString(key, value)`. -/
def Prefs.putString : Prefs → String → String → Prefs
  | [], key, value => [(key, value)]
  | (k, v) :: rest, key, value =>
    if k = key then (k, value) :: rest else (k, v) :: Prefs.putString rest key value

/-- Effect of `preferences.clear()`: every key of the namespace is removed. -/
def Prefs.clear (_ : Prefs) : Prefs := []

/-- Observable actions, recorded in program order (ghost trace). -/
inductive Event where
  /-- Call of `startAPMode()`. -/
  | startAP
  /-- Call of `connectToWiFi()`. -/
  | connectAttempt
  /-- The notification branch of `loop()` was entered; `t` is the real time of the
  `millis()` read in its guard, `initiated` tells whether `smtp.connect` and
  `MailClient.sendMail` both succeeded. -/
  | fire (t : Nat) (initiated : Bool)
  /-- The confirmed-press branch of `checkButton()` was entered at real time `t`. -/
  | buttonAction (t : Nat)
  /-- Call of `preferences.clear()`. -/
  | wipe
  /-- Storing of a submitted form by `handleSave()`. -/
  | saved
  /-- A `delay(ms)` on a path that ends in a restart was executed. -/
  | delay (ms : Nat)
  /-- Call of `ESP.restart()`. -/
  | restart
  deriving DecidableEq, Repr

/-- Globals of the sketch together with the hardware state it drives. -/
structure State where
  wifi_ssid : String
  wifi_password : String
  recipient_email : String
  flag : Int
  ledPreviousMillis : Nat
  ledState : Level
  lastEmailSentTime : Nat
  lastButtonPressTime : Nat
  lastButtonState : Level
  buttonPressedFlag : Bool
  /-- Level last written to `ON_Board_LED`. -/
  led : Level
  /-- Radio mode, as `WiFi.getMode()` reports it. -/
  wifiMode : WifiMode
  /-- Persisted store; the only part that survives a restart. -/
  prefs : Prefs
  /-- Ghost trace of the actions performed so far. -/
  log : List Event

/-- Result of running a piece of the sketch: it either returns, or it called
`ESP.restart()` (the state is the one at the moment of the call). -/
inductive Outcome where
  | running (s : State)
  | restarted (s : State)

/-- State held by an outcome. -/
def Outcome.state : Outcome → State
  | .running s => s
  | .restarted s => s

/-- Whether the outcome is a restart. -/
def Outcome.isRestart : Outcome → Bool
  | .running _ => false
  | .restarted _ => true

/-- Sequencing: the continuation runs only if the first part returned. -/
def Outcome.andThen (o : Outcome) (k : State → Outcome) : Outcome :=
  match o with
  | .running s => k s
  | .restarted s => .restarted s

/-! ## Constants and 32-bit arithmetic -/

/-- Number of values of an `unsigned long` on the ESP32. -/
def U32 : Nat := 4294967296

/-- Minimum time between an initiated send and the next notification, in ms. -/
def EMAIL_COOLDOWN_MS : Nat := 30000

/-- Debounce time of the reset button, in ms. -/
def DEBOUNCE_DELAY_MS : Nat := 50

/-- Value returned by `millis()` at real time `t`. -/
def millis (t : Nat) : Nat := t % U32

/-- Subtraction of two `unsigned long` values. -/
def sub32 (a b : Nat) : Nat := (a % U32 + (U32 - b % U32)) % U32

/-- Unary minus of an `unsigned long` value. -/
def neg32 (a : Nat) : Nat := (U32 - a % U32) % U32

/-! ## Inputs -/

/-- Reads performed by one call of `checkButton()`. -/
structure ButtonInput where
  /-- Level returned by `digitalRead(BUTTON_PIN)`. -/
  level : Level
  /-- Real time of the `millis()` call that resets the debounce timer. -/
  tChange : Nat
  /-- Real time of the `millis()` call in the debounce test. -/
  tCheck : Nat

/-- Reads performed by one iteration of the retry loop of `connectToWiFi()`. -/
structure RetryInput where
  /-- Value of `WiFi.status() == WL_CONNECTED` in the loop condition. -/
  connectedAtTest : Bool
  /-- Reads of the `checkButton()` call in the loop body. -/
  button : ButtonInput
  /-- Value of `WiFi.status() == WL_CONNECTED` in the `break` test after the button check. -/
  connectedAtBreak : Bool

/-- Reads performed by one call of `connectToWiFi()`. -/
structure ConnectInput where
  /-- Reads of the retry loop, indexed by the value of `retries`. -/
  retry : Nat → RetryInput
  /-- Value of `WiFi.status() == WL_CONNECTED` after the loop. -/
  connectedAtEnd : Bool

/-- Reads performed by `setup()`. -/
structure SetupInput where
  connect : ConnectInput
  /-- Value of `WiFi.status() == WL_CONNECTED` after `connectToWiFi()` returned. -/
  connectedAfter : Bool

/-- Request dispatched by `server.handleClient()`. -/
inductive Request where
  /-- GET on the root path. -/
  | root
  /-- POST on the save path with the three form fields. -/
  | save (ssid password recipient : String)
  /-- Any other path (`onNotFound`). -/
  | other

/-- Reads performed by one control cycle of `loop()`. -/
structure LoopInput where
  /-- Reads of the `checkButton()` call that opens the cycle. -/
  button : ButtonInput
  /-- Request served by `server.handleClient()` in Configuration Mode, if any. -/
  request : Option Request
  /-- Value of `WiFi.status() == WL_CONNECTED` in step 1. -/
  connectedAtTop : Bool
  /-- Reads of the reconnect attempt of step 1. -/
  reconnect : ConnectInput
  /-- Value of `WiFi.status() == WL_CONNECTED` in the guard of the notification branch. -/
  connectedAtSend : Bool
  /-- Level returned by `digitalRead(SIG_PIN)` in the guard of the notification branch. -/
  sensorAtSend : Level
  /-- Real time of the `millis()` call in the guard of the notification branch. -/
  tSend : Nat
  /-- Result of `smtp.connect(&session)`. -/
  smtpConnected : Bool
  /-- Result of `MailClient.sendMail(...)`. -/
  mailInitiated : Bool
  /-- Real time of the `millis()` call that records the send. -/
  tSent : Nat
  /-- Level returned by `digitalRead(SIG_PIN)` in the flag-reset test. -/
  sensorAtReset : Level
  /-- Value of `WiFi.status() == WL_CONNECTED` in the guard of the idle branch. -/
  connectedAtIdle : Bool
  /-- Real time of the `millis()` call of the idle blinker. -/
  tIdle : Nat

/-! ## The sketch -/

/-- Globals as the sketch initialises them at power-up; only the store (and the
ghost trace) is carried over from before the restart. -/
def initState (prefs : Prefs) (log : List Event) : State where
  wifi_ssid := ""
  wifi_password := ""
  recipient_email := ""
  flag := 0
  ledPreviousMillis := 0
  ledState := .HIGH
  lastEmailSentTime := 0
  lastButtonPressTime := 0
  lastButtonState := .HIGH
  buttonPressedFlag := false
  led := .HIGH
  wifiMode := .WIFI_OFF
  prefs := prefs
  log := log

/-- The function `checkButton()`. -/
def checkButton (s : State) (b : ButtonInput) : Outcome :=
  let currentButtonState := b.level
  let s1 : State :=
    if currentButtonState ≠ s.lastButtonState then
      { s with lastButtonPressTime := millis b.tChange }
    else s
  if sub32 (millis b.tCheck) s1.lastButtonPressTime > DEBOUNCE_DELAY_MS then
    if currentButtonState = .LOW ∧ s1.buttonPressedFlag = false then
      .restarted { s1 with
        buttonPressedFlag := true
        wifiMode := .WIFI_OFF
        prefs := s1.prefs.clear
        led := .LOW
        log := s1.log ++ [.buttonAction b.tCheck, .delay 100, .wipe, .delay 2000, .restart] }
    else if currentButtonState = .HIGH ∧ s1.buttonPressedFlag = true then
      .running { s1 with buttonPressedFlag := false, lastButtonState := currentButtonState }
    else
      .running { s1 with lastButtonState := currentButtonState }
  else
    .running { s1 with lastButtonState := currentButtonState }

/-- Retry loop of `connectToWiFi()`. The loop runs while the link is down and
`retries < 40`; `fuel` only bounds the recursion and 40 is always enough
(`connectRetry_fuel`). The second component counts the entries into the body. -/
def connectRetry (env : Nat → RetryInput) : Nat → Nat → State → Outcome × Nat
  | 0, retries, s => (.running s, retries)
  | fuel + 1, retries, s =>
    if (env retries).connectedAtTest = false ∧ retries < 40 then
      match checkButton s (env retries).button with
      | .restarted s1 => (.restarted s1, retries + 1)
      | .running s1 =>
        if (env retries).connectedAtBreak then (.running s1, retries + 1)
        else connectRetry env fuel (retries + 1) { s1 with led := .HIGH }
    else (.running s, retries)

/-- The function `connectToWiFi()`. -/
def connectToWiFi (s : State) (i : ConnectInput) : Outcome :=
  let s0 : State := { s with wifiMode := .WIFI_STA, log := s.log ++ [.connectAttempt] }
  (connectRetry i.retry 40 0 s0).1.andThen fun s1 =>
    if i.connectedAtEnd then .running { s1 with led := .HIGH }
    else .running { s1 with led := .LOW }

/-- The function `startAPMode()`. -/
def startAPMode (s : State) : State :=
  { s with wifiMode := .WIFI_AP, log := s.log ++ [.startAP] }

/-- The function `handleRoot()`: serves the form, no effect on the state. -/
def handleRoot (s : State) : Outcome := .running s

/-- The function `handleSave()`. -/
def handleSave (s : State) (new_ssid new_password new_recipient : String) : Outcome :=
  let p1 := s.prefs.putString "ssid" new_ssid
  let p2 := p1.putString "password" new_password
  let p3 := p2.putString "recipient" new_recipient
  .restarted { s with prefs := p3, log := s.log ++ [.saved, .delay 1500, .restart] }

/-- Dispatch of `server.handleClient()` over the routes registered by
`startAPMode()`. -/
def handleClient (s : State) : Option Request → Outcome
  | none => .running s
  | some .root => handleRoot s
  | some (.save ssid password recipient) => handleSave s ssid password recipient
  | some .other => handleRoot s

/-- The function `setup()`. -/
def setup (s : State) (i : SetupInput) : Outcome :=
  let s0 : State := { s with led := .HIGH }
  let s1 : State := { s0 with
    wifi_ssid := s0.prefs.getString "ssid" ""
    wifi_password := s0.prefs.getString "password" ""
    recipient_email := s0.prefs.getString "recipient" "" }
  if s1.wifi_ssid = "" ∨ s1.recipient_email = "" then
    .running (startAPMode { s1 with led := .LOW })
  else
    (connectToWiFi s1 i.connect).andThen fun s2 =>
      if i.connectedAfter then
        .running { s2 with lastEmailSentTime := neg32 EMAIL_COOLDOWN_MS }
      else
        .restarted { s2 with
          prefs := s2.prefs.clear
          log := s2.log ++ [.delay 10000, .wipe, .restart] }

/-- Guard of the notification branch of `loop()`: link up, sensor active, episode
not yet notified, cooldown elapsed. -/
def sendGuard (s : State) (i : LoopInput) : Prop :=
  i.connectedAtSend = true ∧ i.sensorAtSend = .LOW ∧ s.flag = 0 ∧
    sub32 (millis i.tSend) s.lastEmailSentTime > EMAIL_COOLDOWN_MS

instance (s : State) (i : LoopInput) : Decidable (sendGuard s i) := by
  unfold sendGuard
  infer_instance

/-- Steps 2 and 3 of `loop()`: notification branch, flag reset, idle blinker. -/
def loopNormal (s : State) (i : LoopInput) : State :=
  if sendGuard s i then
    let ok := i.smtpConnected && i.mailInitiated
    let s1 : State := { s with led := .LOW, log := s.log ++ [.fire i.tSend ok] }
    let s2 : State :=
      if i.smtpConnected = false then s1
      else if i.mailInitiated = false then s1
      else { s1 with lastEmailSentTime := millis i.tSent }
    { s2 with led := .HIGH, flag := 1 }
  else if s.flag = 1 ∧ i.sensorAtReset = .HIGH then
    { s with flag := 0 }
  else if i.connectedAtIdle = true ∧ s.flag = 0 then
    let currentMillis := millis i.tIdle
    if sub32 currentMillis s.ledPreviousMillis ≥ 1500 then
      { s with ledPreviousMillis := currentMillis
               ledState := s.ledState.toggle
               led := s.ledState.toggle }
    else s
  else s

/-- The function `loop()`: one control cycle. -/
def loop (s : State) (i : LoopInput) : Outcome :=
  (checkButton s i.button).andThen fun s1 =>
    if s1.wifiMode = .WIFI_AP then
      (handleClient s1 i.request).andThen fun s2 => .running { s2 with led := .LOW }
    else
      (if i.connectedAtTop = false then connectToWiFi s1 i.reconnect
       else .running s1).andThen fun s2 => .running (loopNormal s2 i)

/-- Consecutive control cycles; the run ends at a restart. -/
def runLoop : State → List LoopInput → Outcome
  | s, [] => .running s
  | s, i :: rest => (loop s i).andThen fun s1 => runLoop s1 rest

/-- Consecutive polls of `checkButton()`; the run ends at a restart. -/
def runPolls : State → List ButtonInput → Outcome
  | s, [] => .running s
  | s, b :: rest => (checkButton s b).andThen fun s1 => runPolls s1 rest

/-- One boot: power-up initialisation, `setup()`, then control cycles. -/
def boot (prefs : Prefs) (log : List Event) (i : SetupInput) (cycles : List LoopInput) :
    Outcome :=
  (setup (initState prefs log) i).andThen fun s => runLoop s cycles

/-- Entries into the notification branch recorded in a trace, in order: time of
entry and whether the send was initiated. -/
def fires : List Event → List (Nat × Bool)
  | [] => []
  | .fire t ok :: rest => (t, ok) :: fires rest
  | _ :: rest => fires rest

/-- Number of entries into the notification branch recorded in a trace. -/
def fireCount (l : List Event) : Nat := (fires l).length

/-- Number of confirmed button presses recorded in a trace. -/
def actionCount : List Event → Nat
  | [] => 0
  | .buttonAction _ :: rest => actionCount rest + 1
  | _ :: rest => actionCount rest

/-- The two states agree on what the notification throttle sees and records. -/
def SameThrottle (s s1 : State) : Prop :=
  s1.flag = s.flag ∧ s1.lastEmailSentTime = s.lastEmailSentTime ∧ fires s1.log = fires s.log

/-- Real times of the `millis()` reads of the notification branch over a run of
control cycles, in program order. -/
def sendTimes : List LoopInput → List Nat
  | [] => []
  | i :: rest => i.tSend :: i.tSent :: sendTimes rest

/-- Cooldown spacing of recorded entries: every entry that comes after an entry
whose send was initiated lies more than `EMAIL_COOLDOWN_MS` after it. -/
def Spaced (l : List (Nat × Bool)) : Prop :=
  l.Pairwise fun a b => a.2 = true → a.1 + EMAIL_COOLDOWN_MS < b.1

/-- Spacing of all recorded entries, whatever the outcome of the send. -/
def AllSpaced (l : List (Nat × Bool)) : Prop :=
  l.Pairwise fun a b => a.1 + EMAIL_COOLDOWN_MS < b.1

/-- Level of the last poll of a sequence, or `l0` when the sequence is empty: the
level "of the poll before" the one that follows the sequence. -/
def levelBefore (l0 : Level) : List ButtonInput → Level
  | [] => l0
  | b :: rest => levelBefore b.level rest

/-! ## Successive boots -/

/-- Reads of one boot, from power-up or restart to the next restart. `startedAt`
is the real time at which the boot begins, that is, at which `millis()` is 0;
the times in `setupIn` and `cycles` are counted from there. -/
structure BootInput where
  startedAt : Nat
  setupIn : SetupInput
  cycles : List LoopInput

/-- Trace after successive boots: a boot that ends in a restart is followed by
the next one, which starts from the store and the trace left behind; a boot
whose cycles run out without a restart ends the scenario. -/
def runBoots (prefs : Prefs) (log : List Event) : List BootInput → List Event
  | [] => log
  | b :: rest =>
    match boot prefs log b.setupIn b.cycles with
    | .running s => s.log
    | .restarted s => runBoots s.prefs s.log rest

/-- Every button poll of a connection attempt satisfies `Q`. -/
def ConnectInput.ForallPolls (Q : ButtonInput → Prop) (c : ConnectInput) : Prop :=
  ∀ n, Q (c.retry n).button

/-- Every button poll of a control cycle satisfies `Q`. -/
def LoopInput.ForallPolls (Q : ButtonInput → Prop) (i : LoopInput) : Prop :=
  Q i.button ∧ i.reconnect.ForallPolls Q

/-- Every button poll of a boot satisfies `Q`. -/
def BootInput.ForallPolls (Q : ButtonInput → Prop) (b : BootInput) : Prop :=
  b.setupIn.connect.ForallPolls Q ∧ ∀ i ∈ b.cycles, i.ForallPolls Q

/-- Earliest time, counted from the start of the boot, of the restart that ends a
trace, when that restart is the one of a confirmed press: the time of the
debounce test plus the two delays executed before `ESP.restart()`. -/
def pressRestartTime (log : List Event) : Option Nat :=
  match log.reverse with
  | .restart :: .delay d2 :: .wipe :: .delay d1 :: .buttonAction t :: _ => some (t + d1 + d2)
  | _ => none

/-- Timing of successive boots: after a boot that ended in the restart of a
confirmed press, no later boot starts before that restart. -/
def wellTimed (prefs : Prefs) (log : List Event) : List BootInput → Bool
  | [] => true
  | b :: rest =>
    match boot prefs log b.setupIn b.cycles with
    | .running _ => true
    | .restarted s =>
      (match pressRestartTime s.log with
        | some t => rest.all fun nb => decide (b.startedAt + t ≤ nb.startedAt)
        | none => true) && wellTimed s.prefs s.log rest

/-! ## Inputs of the worked scenarios -/

/-- Button read released at real time `t`. -/
def released (t : Nat) : ButtonInput := { level := .HIGH, tChange := t, tCheck := t }

/-- Button read pressed at real time `t`. -/
def pressed (t : Nat) : ButtonInput := { level := .LOW, tChange := t, tCheck := t }

/-- Connection attempt during which every status read reports the link up. -/
def linkUp : ConnectInput where
  retry := fun n =>
    { connectedAtTest := true, button := released (500 * n), connectedAtBreak := true }
  connectedAtEnd := true

/-- Connection attempt during which every status read reports the link down and
the button is released. -/
def linkDown : ConnectInput where
  retry := fun n =>
    { connectedAtTest := false, button := released (500 * n), connectedAtBreak := false }
  connectedAtEnd := false

/-- Connected control cycle at real time `t`: button `b`, sensor level `sensor`
at both reads, SMTP calls succeeding or not according to `ok`. -/
def cycleAt (t : Nat) (b : ButtonInput) (sensor : Level) (ok : Bool) : LoopInput where
  button := b
  request := none
  connectedAtTop := true
  reconnect := linkUp
  connectedAtSend := true
  sensorAtSend := sensor
  tSend := t
  smtpConnected := ok
  mailInitiated := ok
  tSent := t
  sensorAtReset := sensor
  connectedAtIdle := true
  tIdle := t

/-- Store holding a complete set of credentials. -/
def homeCreds : Prefs :=
  [("ssid", "HomeNet"), ("password", "secret"), ("recipient", "owner@example.com")]

/-- Setup reads of a boot during which the link comes up at once. -/
def linkUpSetup : SetupInput := { connect := linkUp, connectedAfter := true }

/-- State in which `setup()` returns after a successful boot with `homeCreds`. -/
def normalState : State := (setup (initState homeCreds []) linkUpSetup).state

/-- Three connected cycles with the sensor active throughout. -/
def sustainedRun : List LoopInput :=
  [cycleAt 100000 (released 100000) .LOW true,
   cycleAt 100020 (released 100020) .LOW true,
   cycleAt 140000 (released 140000) .LOW true]

/-- Two sensor episodes 40 ms apart; the send of the first attempt fails. -/
def failedSendRun : List LoopInput :=
  [cycleAt 100000 (released 100000) .LOW false,
   cycleAt 100020 (released 100020) .HIGH false,
   cycleAt 100040 (released 100040) .LOW false]

/-- Run in which a send is initiated at 100000 ms, the sensor clears at 101000 ms
and is active again at 101500 ms and at 131000 ms. -/
def cooldownRun : List LoopInput :=
  [cycleAt 100000 (released 100000) .LOW true,
   cycleAt 101000 (released 101000) .HIGH true,
   cycleAt 101500 (released 101500) .LOW true,
   cycleAt 131000 (released 131000) .LOW true]

/-- Connected control cycle at the last 30 s before `millis()` wraps around. -/
def lateCycle : LoopInput := cycleAt 4294937296 (released 4294937296) .LOW true

/-- Cycle of the scenario of C4 in which the sensor has cleared, at 1000 ms. -/
def clearedCycle : LoopInput := cycleAt 1000 (released 1000) .HIGH true

/-- State right after a notification initiated at 0 ms: flag set, send recorded. -/
def notifiedState : State := { normalState with flag := 1, lastEmailSentTime := 0 }

/-- Control cycle during which the link stays down: the reconnect attempt uses up
its 40 retries, the button is released. -/
def lostLinkCycle (t : Nat) : LoopInput where
  button := released t
  request := none
  connectedAtTop := false
  reconnect := linkDown
  connectedAtSend := false
  sensorAtSend := .HIGH
  tSend := t
  smtpConnected := false
  mailInitiated := false
  tSent := t
  sensorAtReset := .HIGH
  connectedAtIdle := false
  tIdle := t

/-- The scenario of C4 as one run: sensor cleared at 1000 ms, active at 1500 ms
and at 31000 ms. -/
def breakRun : List LoopInput :=
  [clearedCycle, cycleAt 1500 (released 1500) .LOW true,
   cycleAt 31000 (released 31000) .LOW true]

/-- Store of the scenario of C1: network name saved, recipient missing. -/
def noRecipient : Prefs := [("ssid", "HomeNet"), ("password", "secret")]

/-- Store for an open network: network name and recipient saved, no password. -/
def openNetwork : Prefs := [("ssid", "HomeNet"), ("recipient", "owner@example.com")]

/-- Setup reads of a boot during which every status read reports the link down. -/
def linkDownSetup : SetupInput := { connect := linkDown, connectedAfter := false }

/-- Setup reads of a boot in which the link is reported up at retry 3 and at the
end of `connectToWiFi()`, and down again when `setup()` reads the status. -/
def flappingSetup : SetupInput where
  connect :=
    { retry := fun n =>
        { connectedAtTest := decide (3 ≤ n), button := released (500 * n),
          connectedAtBreak := false }
      connectedAtEnd := true }
  connectedAfter := false

/-- State after a first poll that reads the button pressed, at 1000 ms. -/
def pressSeenState : State := (checkButton normalState (pressed 1000)).state

/-- Connection attempt during which the link is up and every poll reads the
button pressed. -/
def heldLink : ConnectInput where
  retry := fun n =>
    { connectedAtTest := true, button := pressed (500 * n), connectedAtBreak := true }
  connectedAtEnd := true

/-- Control cycle at time `t` of its boot during which the button reads pressed. -/
def heldCycle (t : Nat) : LoopInput :=
  { cycleAt t (pressed t) .HIGH false with reconnect := heldLink }

/-- Setup reads of a boot during which the link comes up at once and every poll
reads the button pressed. -/
def heldSetup : SetupInput := { connect := heldLink, connectedAfter := true }

/-- Button held from 1000 ms on and still held after the restart: the first boot
polls it at 1000 ms and 1060 ms, the second boot, started at 3400 ms, polls it 10 ms
and 70 ms later. Every poll reads LOW. -/
def heldBoots : List BootInput :=
  [{ startedAt := 0, setupIn := heldSetup, cycles := [heldCycle 1000, heldCycle 1060] },
   { startedAt := 3400, setupIn := heldSetup, cycles := [heldCycle 10, heldCycle 70] }]

/-! ## Basic facts -/

theorem fires_append (l1 l2 : List Event) : fires (l1 ++ l2) = fires l1 ++ fires l2 := by
  induction l1 with
  | nil => rfl
  | cons e l ih => cases e <;> simp [fires, ih]

theorem actionCount_append (l1 l2 : List Event) :
    actionCount (l1 ++ l2) = actionCount l1 + actionCount l2 := by
  induction l1 with
  | nil => simp [actionCount]
  | cons e l ih =>
    cases e <;> simp [actionCount, ih]
    omega

theorem sub32_millis (a b : Nat) (h : b ≤ a) : sub32 (millis a) (millis b) = (a - b) % U32 := by
  unfold sub32 millis U32
  omega

/-- A poll that returns only touches the three debounce variables. -/
theorem checkButton_running {s s1 : State} {b : ButtonInput}
    (h : checkButton s b = .running s1) :
    ∃ t f, s1 = { s with lastButtonPressTime := t, lastButtonState := b.level,
                         buttonPressedFlag := f } := by
  unfold checkButton at h
  simp only at h
  split_ifs at h <;> simp at h <;> subst h <;> exact ⟨_, _, rfl⟩

/-- A poll that restarts has wiped the store and recorded one confirmed press. -/
theorem checkButton_restarted {s s1 : State} {b : ButtonInput}
    (h : checkButton s b = .restarted s1) :
    b.level = .LOW ∧ s1.prefs = [] ∧
    s1.log = s.log ++ [.buttonAction b.tCheck, .delay 100, .wipe, .delay 2000, .restart] := by
  unfold checkButton at h
  simp only at h
  split_ifs at h <;> simp at h <;> subst h <;> simp_all [Prefs.clear]

/-- One unfolding of the retry loop. -/
theorem connectRetry_succ (env : Nat → RetryInput) (fuel retries : Nat) (s : State) :
    connectRetry env (fuel + 1) retries s =
      if (env retries).connectedAtTest = false ∧ retries < 40 then
        match checkButton s (env retries).button with
        | .restarted s1 => (.restarted s1, retries + 1)
        | .running s1 =>
          if (env retries).connectedAtBreak then (.running s1, retries + 1)
          else connectRetry env fuel (retries + 1) { s1 with led := .HIGH }
      else (.running s, retries) := by
  rw [connectRetry]

/-- The retry loop, when it returns, only touched the debounce variables and the
LED. -/
theorem connectRetry_running (env : Nat → RetryInput) :
    ∀ (fuel retries : Nat) (s s1 : State),
      (connectRetry env fuel retries s).1 = .running s1 →
      ∃ t l f d, s1 = { s with lastButtonPressTime := t, lastButtonState := l,
                               buttonPressedFlag := f, led := d } := by
  intro fuel
  induction fuel with
  | zero =>
    intro retries s s1 h
    simp [connectRetry] at h
    subst h
    exact ⟨_, _, _, _, rfl⟩
  | succ n ih =>
    intro retries s s1 h
    rw [connectRetry_succ] at h
    by_cases hc : (env retries).connectedAtTest = false ∧ retries < 40
    · rw [if_pos hc] at h
      cases hb : checkButton s (env retries).button with
      | restarted s2 => rw [hb] at h; simp at h
      | running s2 =>
        obtain ⟨t, f, rfl⟩ := checkButton_running hb
        rw [hb] at h
        by_cases hk : (env retries).connectedAtBreak = true
        · simp [hk] at h
          subst h
          exact ⟨_, _, _, _, rfl⟩
        · simp only [hk] at h
          obtain ⟨t2, l2, f2, d2, rfl⟩ := ih _ _ _ h
          exact ⟨_, _, _, _, rfl⟩
    · rw [if_neg hc] at h
      simp at h
      subst h
      exact ⟨_, _, _, _, rfl⟩

/-- The retry loop restarts only through a confirmed press at one of its polls. -/
theorem connectRetry_restarted (env : Nat → RetryInput) :
    ∀ (fuel retries : Nat) (s s1 : State),
      (connectRetry env fuel retries s).1 = .restarted s1 →
      s1.prefs = [] ∧ ∃ n, (env n).button.level = .LOW ∧
        s1.log = s.log ++ [.buttonAction (env n).button.tCheck, .delay 100, .wipe,
          .delay 2000, .restart] := by
  intro fuel
  induction fuel with
  | zero =>
    intro retries s s1 h
    simp [connectRetry] at h
  | succ n ih =>
    intro retries s s1 h
    rw [connectRetry_succ] at h
    by_cases hc : (env retries).connectedAtTest = false ∧ retries < 40
    · rw [if_pos hc] at h
      cases hb : checkButton s (env retries).button with
      | restarted s2 =>
        rw [hb] at h
        simp at h
        subst h
        obtain ⟨h1, h2, h3⟩ := checkButton_restarted hb
        exact ⟨h2, retries, h1, h3⟩
      | running s2 =>
        obtain ⟨t, f, rfl⟩ := checkButton_running hb
        rw [hb] at h
        by_cases hk : (env retries).connectedAtBreak = true
        · simp [hk] at h
        · simp only [hk] at h
          obtain ⟨h2, m, h1, h3⟩ := ih _ _ _ h
          exact ⟨h2, m, h1, by simpa using h3⟩
    · rw [if_neg hc] at h
      simp at h

/-- The retry loop enters its body at most 40 times. -/
theorem connectRetry_count (env : Nat → RetryInput) :
    ∀ (fuel retries : Nat) (s : State), retries ≤ 40 →
      (connectRetry env fuel retries s).2 ≤ 40 := by
  intro fuel
  induction fuel with
  | zero => intro retries s h; simpa [connectRetry] using h
  | succ n ih =>
    intro retries s h
    rw [connectRetry_succ]
    by_cases hc : (env retries).connectedAtTest = false ∧ retries < 40
    · rw [if_pos hc]
      cases hb : checkButton s (env retries).button with
      | restarted s2 => simp only; omega
      | running s2 =>
        by_cases hk : (env retries).connectedAtBreak = true
        · simp only [hk, if_true]; omega
        · simp only [hk]
          exact ih _ _ (by omega)
    · rw [if_neg hc]
      exact h

/-- Forty units of fuel are always enough: more fuel does not change the result of
the retry loop. -/
theorem connectRetry_fuel (env : Nat → RetryInput) :
    ∀ (fuel retries : Nat) (s : State), 40 ≤ retries + fuel →
      connectRetry env (fuel + 1) retries s = connectRetry env fuel retries s := by
  intro fuel
  induction fuel with
  | zero =>
    intro retries s h
    have : ¬ retries < 40 := by omega
    simp [connectRetry, this]
  | succ n ih =>
    intro retries s h
    rw [connectRetry_succ env (n + 1), connectRetry_succ env n]
    by_cases hc : (env retries).connectedAtTest = false ∧ retries < 40
    · rw [if_pos hc, if_pos hc]
      cases hb : checkButton s (env retries).button with
      | restarted s2 => rfl
      | running s2 =>
        by_cases hk : (env retries).connectedAtBreak = true
        · simp only [hk, if_true]
        · simp only [hk]
          exact ih _ _ (by omega)
    · rw [if_neg hc, if_neg hc]

/-- A connection attempt that returns has switched the radio to station mode and
recorded the attempt; besides that it only touched the debounce variables and
the LED. -/
theorem connectToWiFi_running {s s1 : State} {i : ConnectInput}
    (h : connectToWiFi s i = .running s1) :
    ∃ t l f d, s1 = { s with lastButtonPressTime := t, lastButtonState := l,
                             buttonPressedFlag := f, led := d, wifiMode := .WIFI_STA,
                             log := s.log ++ [.connectAttempt] } := by
  unfold connectToWiFi at h
  simp only at h
  cases hr : (connectRetry i.retry 40 0
      { s with wifiMode := .WIFI_STA, log := s.log ++ [.connectAttempt] }).1 with
  | restarted s2 => rw [hr] at h; simp [Outcome.andThen] at h
  | running s2 =>
    obtain ⟨t, l, f, d, rfl⟩ := connectRetry_running _ _ _ _ _ hr
    rw [hr] at h
    simp only [Outcome.andThen] at h
    split_ifs at h <;> simp at h <;> subst h <;> exact ⟨_, _, _, _, rfl⟩

/-- A connection attempt restarts only through a confirmed press at one of its
polls; the store is then wiped. -/
theorem connectToWiFi_restarted {s s1 : State} {i : ConnectInput}
    (h : connectToWiFi s i = .restarted s1) :
    s1.prefs = [] ∧ ∃ n, (i.retry n).button.level = .LOW ∧
      s1.log = s.log ++ [.connectAttempt, .buttonAction (i.retry n).button.tCheck,
        .delay 100, .wipe, .delay 2000, .restart] := by
  unfold connectToWiFi at h
  simp only at h
  cases hr : (connectRetry i.retry 40 0
      { s with wifiMode := .WIFI_STA, log := s.log ++ [.connectAttempt] }).1 with
  | restarted s2 =>
    rw [hr] at h
    simp only [Outcome.andThen] at h
    simp at h
    subst h
    obtain ⟨h2, n, h1, h3⟩ := connectRetry_restarted _ _ _ _ _ hr
    exact ⟨h2, n, h1, by simpa using h3⟩
  | running s2 =>
    rw [hr] at h
    simp only [Outcome.andThen] at h
    split_ifs at h

/-- Every outcome of a connection attempt has the attempt in its trace, and has
no call of `startAPMode()` that was not there before. -/
theorem connectToWiFi_log (s : State) (i : ConnectInput) :
    Event.connectAttempt ∈ (connectToWiFi s i).state.log ∧
    (Event.startAP ∈ (connectToWiFi s i).state.log → Event.startAP ∈ s.log) := by
  cases h : connectToWiFi s i with
  | running s1 =>
    obtain ⟨t, l, f, d, rfl⟩ := connectToWiFi_running h
    simp [Outcome.state]
  | restarted s1 =>
    obtain ⟨_, n, _, h3⟩ := connectToWiFi_restarted h
    simp [Outcome.state, h3]

/-! ## C1: mode selection at boot -/

/-- C1. For every store content, with (ssid, password, recipient) the triple that
`setup()` loads from it at boot: `setup()` calls `startAPMode()` and never
`connectToWiFi()` (Configuration Mode: it returns with the radio in access-point
mode) if and only if ssid is empty or recipient is empty; otherwise it calls
`connectToWiFi()` and never `startAPMode()`. The password does not occur in the
condition, so the choice is the same for every password, the empty one
included. -/
theorem setup_mode_selection (prefs : Prefs) (i : SetupInput) (ssid password recipient : String)
    (hs : prefs.getString "ssid" "" = ssid)
    (hp : prefs.getString "password" "" = password)
    (hr : prefs.getString "recipient" "" = recipient) :
    ((Event.startAP ∈ (setup (initState prefs []) i).state.log ∧
        Event.connectAttempt ∉ (setup (initState prefs []) i).state.log) ↔
      (ssid = "" ∨ recipient = "")) ∧
    ((ssid = "" ∨ recipient = "") →
      (setup (initState prefs []) i).isRestart = false ∧
      (setup (initState prefs []) i).state.wifiMode = .WIFI_AP ∧
      (setup (initState prefs []) i).state.wifi_password = password) ∧
    ((Event.connectAttempt ∈ (setup (initState prefs []) i).state.log ∧
        Event.startAP ∉ (setup (initState prefs []) i).state.log) ↔
      ¬ (ssid = "" ∨ recipient = "")) := by
  subst hs hp hr
  by_cases hc : prefs.getString "ssid" "" = "" ∨ prefs.getString "recipient" "" = ""
  · have hset : setup (initState prefs []) i = .running (startAPMode
        { initState prefs [] with
          led := .LOW
          wifi_ssid := prefs.getString "ssid" ""
          wifi_password := prefs.getString "password" ""
          recipient_email := prefs.getString "recipient" "" }) := by
      unfold setup
      simp only [initState]
      rw [if_pos hc]
    rw [hset]
    simp [Outcome.state, Outcome.isRestart, startAPMode, initState, hc]
  · have hset : setup (initState prefs []) i =
        (connectToWiFi { initState prefs [] with
          led := .HIGH
          wifi_ssid := prefs.getString "ssid" ""
          wifi_password := prefs.getString "password" ""
          recipient_email := prefs.getString "recipient" "" } i.connect).andThen fun s2 =>
          if i.connectedAfter then
            .running { s2 with lastEmailSentTime := neg32 EMAIL_COOLDOWN_MS }
          else
            .restarted { s2 with
              prefs := s2.prefs.clear
              log := s2.log ++ [.delay 10000, .wipe, .restart] } := by
      unfold setup
      simp only [initState]
      rw [if_neg hc]
    have hlog := connectToWiFi_log { initState prefs [] with
          led := .HIGH
          wifi_ssid := prefs.getString "ssid" ""
          wifi_password := prefs.getString "password" ""
          recipient_email := prefs.getString "recipient" "" } i.connect
    rw [hset]
    cases hcw : connectToWiFi { initState prefs [] with
          led := .HIGH
          wifi_ssid := prefs.getString "ssid" ""
          wifi_password := prefs.getString "password" ""
          recipient_email := prefs.getString "recipient" "" } i.connect with
    | restarted s1 =>
      rw [hcw] at hlog
      simp only [Outcome.state, initState] at hlog
      simp [Outcome.andThen, Outcome.state, hc, hlog.1]
      intro h
      simpa using hlog.2 h
    | running s1 =>
      rw [hcw] at hlog
      simp only [Outcome.state, initState] at hlog
      simp only [Outcome.andThen]
      split_ifs <;> simp [Outcome.state, hc, hlog.1] <;> intro h <;> simpa using hlog.2 h

/-- Scenario: ssid = "HomeNet" with no recipient selects Configuration Mode; an
open network (empty password) with a recipient attempts the connection. -/
theorem setup_mode_selection_witness :
    noRecipient.getString "ssid" "" = "HomeNet" ∧ noRecipient.getString "recipient" "" = "" ∧
    Event.startAP ∈ (setup (initState noRecipient []) linkUpSetup).state.log ∧
    Event.connectAttempt ∉ (setup (initState noRecipient []) linkUpSetup).state.log ∧
    (setup (initState noRecipient []) linkUpSetup).state.wifiMode = .WIFI_AP ∧
    openNetwork.getString "password" "" = "" ∧
    Event.connectAttempt ∈ (setup (initState openNetwork []) linkUpSetup).state.log ∧
    Event.startAP ∉ (setup (initState openNetwork []) linkUpSetup).state.log :=
  have h := setup_mode_selection noRecipient linkUpSetup "HomeNet" "secret" ""
    (by decide) (by decide) (by decide)
  have h2 := setup_mode_selection openNetwork linkUpSetup "HomeNet" "" "owner@example.com"
    (by decide) (by decide) (by decide)
  ⟨by decide, by decide, (h.1.mpr (Or.inr rfl)).1, (h.1.mpr (Or.inr rfl)).2,
    (h.2.1 (Or.inr rfl)).2.1, by decide, (h2.2.2.mpr (by decide)).1,
    (h2.2.2.mpr (by decide)).2⟩

/-! ## One control cycle -/

/-- What the notification branch does. -/
theorem loopNormal_fire {s : State} {i : LoopInput} (h : sendGuard s i) :
    loopNormal s i = { s with
      led := .HIGH
      flag := 1
      log := s.log ++ [.fire i.tSend (i.smtpConnected && i.mailInitiated)]
      lastEmailSentTime :=
        if (i.smtpConnected && i.mailInitiated) = true then millis i.tSent
        else s.lastEmailSentTime } := by
  unfold loopNormal
  rw [if_pos h]
  cases i.smtpConnected <;> cases i.mailInitiated <;> simp

/-- What a cycle does when the notification branch is not entered. -/
theorem loopNormal_idle {s : State} {i : LoopInput} (h : ¬ sendGuard s i) :
    ∃ p ls d, loopNormal s i = { s with
      flag := if s.flag = 1 ∧ i.sensorAtReset = .HIGH then 0 else s.flag
      ledPreviousMillis := p
      ledState := ls
      led := d } := by
  unfold loopNormal
  rw [if_neg h]
  by_cases h1 : s.flag = 1 ∧ i.sensorAtReset = .HIGH
  · rw [if_pos h1, if_pos h1]
    exact ⟨_, _, _, rfl⟩
  · rw [if_neg h1, if_neg h1]
    simp only
    split_ifs <;> exact ⟨_, _, _, rfl⟩

/-- A cycle outside Configuration Mode that returns has run steps 2 and 3 on a
state that differs from the initial one only by the debounce variables, the LED
and, if a reconnect was attempted, the radio mode and the trace. -/
theorem loop_normal_running {s s1 : State} {i : LoopInput}
    (hm : s.wifiMode ≠ .WIFI_AP) (h : loop s i = .running s1) :
    ∃ t l f d, s1 = loopNormal
      (if i.connectedAtTop = false then
        { s with lastButtonPressTime := t, lastButtonState := l, buttonPressedFlag := f,
                 led := d, wifiMode := .WIFI_STA, log := s.log ++ [.connectAttempt] }
       else
        { s with lastButtonPressTime := t, lastButtonState := l, buttonPressedFlag := f,
                 led := d }) i := by
  unfold loop at h
  cases hb : checkButton s i.button with
  | restarted s2 => rw [hb] at h; simp [Outcome.andThen] at h
  | running s2 =>
    obtain ⟨t, f, rfl⟩ := checkButton_running hb
    rw [hb] at h
    simp only [Outcome.andThen] at h
    rw [if_neg hm] at h
    by_cases ht : i.connectedAtTop = false
    · rw [if_pos ht] at h
      cases hc : connectToWiFi
          { s with lastButtonPressTime := t, lastButtonState := i.button.level,
                   buttonPressedFlag := f } i.reconnect with
      | restarted s3 => rw [hc] at h; simp at h
      | running s3 =>
        obtain ⟨t2, l2, f2, d2, rfl⟩ := connectToWiFi_running hc
        rw [hc] at h
        simp at h
        subst h
        refine ⟨t2, l2, f2, d2, ?_⟩
        rw [if_pos ht]
    · rw [if_neg ht] at h
      simp at h
      subst h
      refine ⟨t, i.button.level, f, s.led, ?_⟩
      rw [if_neg ht]

/-- A cycle restarts either through a confirmed button press, which wipes the
store, or, in Configuration Mode, through a submitted form. -/
theorem loop_restarted {s s1 : State} {i : LoopInput} (h : loop s i = .restarted s1) :
    (s1.prefs = [] ∧ ∃ t pre, (pre = [] ∨ pre = [Event.connectAttempt]) ∧
      s1.log = s.log ++ pre ++ [.buttonAction t, .delay 100, .wipe, .delay 2000, .restart]) ∨
    (s.wifiMode = .WIFI_AP ∧ s1.log = s.log ++ [.saved, .delay 1500, .restart]) := by
  unfold loop at h
  cases hb : checkButton s i.button with
  | restarted s2 =>
    rw [hb] at h
    simp [Outcome.andThen] at h
    subst h
    obtain ⟨_, h2, h3⟩ := checkButton_restarted hb
    exact Or.inl ⟨h2, _, [], Or.inl rfl, by simpa using h3⟩
  | running s2 =>
    obtain ⟨t, f, rfl⟩ := checkButton_running hb
    rw [hb] at h
    simp only [Outcome.andThen] at h
    by_cases hm : s.wifiMode = .WIFI_AP
    · rw [if_pos hm] at h
      right
      refine ⟨hm, ?_⟩
      cases hr : i.request with
      | none => rw [hr] at h; simp [handleClient] at h
      | some r =>
        rw [hr] at h
        cases r <;> simp [handleClient, handleRoot, handleSave] at h
        subst h
        rfl
    · rw [if_neg hm] at h
      left
      by_cases ht : i.connectedAtTop = false
      · rw [if_pos ht] at h
        cases hc : connectToWiFi
            { s with lastButtonPressTime := t, lastButtonState := i.button.level,
                     buttonPressedFlag := f } i.reconnect with
        | restarted s3 =>
          rw [hc] at h
          simp at h
          subst h
          obtain ⟨h2, n, _, h3⟩ := connectToWiFi_restarted hc
          exact ⟨h2, _, [.connectAttempt], Or.inr rfl, by simpa using h3⟩
        | running s3 => rw [hc] at h; simp at h
      · rw [if_neg ht] at h
        simp at h

/-! ## The throttle variables are only touched by the notification branch -/

theorem sameThrottle_refl (s : State) : SameThrottle s s := ⟨rfl, rfl, rfl⟩

theorem sameThrottle_trans {a b c : State} (h1 : SameThrottle a b) (h2 : SameThrottle b c) :
    SameThrottle a c :=
  ⟨h2.1.trans h1.1, h2.2.1.trans h1.2.1, h2.2.2.trans h1.2.2⟩

theorem checkButton_throttle (s : State) (b : ButtonInput) :
    SameThrottle s (checkButton s b).state := by
  cases h : checkButton s b with
  | running s1 =>
    obtain ⟨t, f, rfl⟩ := checkButton_running h
    exact ⟨rfl, rfl, rfl⟩
  | restarted s1 =>
    obtain ⟨_, _, h3⟩ := checkButton_restarted h
    unfold checkButton at h
    simp only at h
    refine ⟨?_, ?_, ?_⟩
    · split_ifs at h <;> simp at h <;> subst h <;> rfl
    · split_ifs at h <;> simp at h <;> subst h <;> rfl
    · simp [Outcome.state, h3, fires_append, fires]

theorem connectRetry_throttle (env : Nat → RetryInput) :
    ∀ (fuel retries : Nat) (s : State),
      SameThrottle s (connectRetry env fuel retries s).1.state := by
  intro fuel
  induction fuel with
  | zero => intro retries s; exact sameThrottle_refl s
  | succ n ih =>
    intro retries s
    rw [connectRetry_succ]
    by_cases hc : (env retries).connectedAtTest = false ∧ retries < 40
    · rw [if_pos hc]
      have hb := checkButton_throttle s (env retries).button
      cases hcb : checkButton s (env retries).button with
      | restarted s2 => rw [hcb] at hb; exact hb
      | running s2 =>
        rw [hcb] at hb
        by_cases hk : (env retries).connectedAtBreak = true
        · simp only [hk, if_true]; exact hb
        · simp only [hk]
          exact sameThrottle_trans (b := { s2 with led := .HIGH }) hb (ih _ _)
    · rw [if_neg hc]
      exact sameThrottle_refl s

theorem connectToWiFi_throttle (s : State) (i : ConnectInput) :
    SameThrottle s (connectToWiFi s i).state := by
  cases h : connectToWiFi s i with
  | running s1 =>
    obtain ⟨t, l, f, d, rfl⟩ := connectToWiFi_running h
    exact ⟨rfl, rfl, by simp [Outcome.state, fires_append, fires]⟩
  | restarted s1 =>
    have h0 := h
    unfold connectToWiFi at h
    simp only at h
    have hr := connectRetry_throttle i.retry 40 0
      { s with wifiMode := .WIFI_STA, log := s.log ++ [.connectAttempt] }
    cases hcr : (connectRetry i.retry 40 0
        { s with wifiMode := .WIFI_STA, log := s.log ++ [.connectAttempt] }).1 with
    | restarted s2 =>
      rw [hcr] at h hr
      simp [Outcome.andThen] at h
      subst h
      obtain ⟨a, b, c⟩ := hr
      exact ⟨a, b, by simpa [Outcome.state, fires_append, fires] using c⟩
    | running s2 =>
      rw [hcr] at h
      simp only [Outcome.andThen] at h
      split_ifs at h

theorem handleClient_throttle (s : State) (r : Option Request) :
    SameThrottle s (handleClient s r).state := by
  cases r with
  | none => exact sameThrottle_refl s
  | some q =>
    cases q <;>
      simp [handleClient, handleRoot, handleSave, Outcome.state, SameThrottle, fires_append, fires]

/-- Effect of one control cycle on the throttle: either nothing is recorded and
the flag is kept or cleared by an inactive sensor, or the notification branch is
entered once, from flag 0 and with the cooldown elapsed. -/
theorem loop_throttle (s : State) (i : LoopInput) :
    (fires (loop s i).state.log = fires s.log ∧
      (loop s i).state.lastEmailSentTime = s.lastEmailSentTime ∧
      ((loop s i).state.flag = s.flag ∨
        (s.flag = 1 ∧ i.sensorAtReset = .HIGH ∧ (loop s i).state.flag = 0))) ∨
    (s.flag = 0 ∧ i.sensorAtSend = .LOW ∧
      sub32 (millis i.tSend) s.lastEmailSentTime > EMAIL_COOLDOWN_MS ∧
      (loop s i).state.flag = 1 ∧
      fires (loop s i).state.log =
        fires s.log ++ [(i.tSend, i.smtpConnected && i.mailInitiated)] ∧
      (loop s i).state.lastEmailSentTime =
        if (i.smtpConnected && i.mailInitiated) = true then millis i.tSent
        else s.lastEmailSentTime) := by
  have hb := checkButton_throttle s i.button
  unfold loop
  cases hcb : checkButton s i.button with
  | restarted s1 =>
    rw [hcb] at hb
    left
    simp only [Outcome.andThen, Outcome.state] at hb ⊢
    exact ⟨hb.2.2, hb.2.1, Or.inl hb.1⟩
  | running s1 =>
    rw [hcb] at hb
    simp only [Outcome.andThen, Outcome.state] at hb ⊢
    by_cases hm : s1.wifiMode = .WIFI_AP
    · rw [if_pos hm]
      left
      have hh := handleClient_throttle s1 i.request
      cases hhc : handleClient s1 i.request with
      | restarted s2 =>
        rw [hhc] at hh
        have := sameThrottle_trans hb hh
        exact ⟨this.2.2, this.2.1, Or.inl this.1⟩
      | running s2 =>
        rw [hhc] at hh
        have := sameThrottle_trans hb hh
        exact ⟨this.2.2, this.2.1, Or.inl this.1⟩
    · rw [if_neg hm]
      have key : ∀ s2 : State, SameThrottle s s2 →
          (fires (loopNormal s2 i).log = fires s.log ∧
            (loopNormal s2 i).lastEmailSentTime = s.lastEmailSentTime ∧
            ((loopNormal s2 i).flag = s.flag ∨
              (s.flag = 1 ∧ i.sensorAtReset = .HIGH ∧ (loopNormal s2 i).flag = 0))) ∨
          (s.flag = 0 ∧ i.sensorAtSend = .LOW ∧
            sub32 (millis i.tSend) s.lastEmailSentTime > EMAIL_COOLDOWN_MS ∧
            (loopNormal s2 i).flag = 1 ∧
            fires (loopNormal s2 i).log =
              fires s.log ++ [(i.tSend, i.smtpConnected && i.mailInitiated)] ∧
            (loopNormal s2 i).lastEmailSentTime =
              if (i.smtpConnected && i.mailInitiated) = true then millis i.tSent
              else s.lastEmailSentTime) := by
        intro s2 h2
        obtain ⟨hf, hl, hg⟩ := h2
        by_cases hgd : sendGuard s2 i
        · right
          rw [loopNormal_fire hgd]
          obtain ⟨_, g2, g3, g4⟩ := hgd
          rw [hf] at g3
          rw [hl] at g4
          exact ⟨g3, g2, g4, rfl, by simp [fires_append, fires, hg], by simp [hl]⟩
        · left
          obtain ⟨p, ls, d, he⟩ := loopNormal_idle hgd
          rw [he]
          refine ⟨hg, hl, ?_⟩
          simp only
          by_cases h1 : s2.flag = 1 ∧ i.sensorAtReset = .HIGH
          · rw [if_pos h1]
            exact Or.inr ⟨hf ▸ h1.1, h1.2, rfl⟩
          · rw [if_neg h1]
            exact Or.inl hf
      by_cases ht : i.connectedAtTop = false
      · rw [if_pos ht]
        have hc := connectToWiFi_throttle s1 i.reconnect
        cases hcw : connectToWiFi s1 i.reconnect with
        | restarted s2 =>
          rw [hcw] at hc
          have := sameThrottle_trans hb hc
          left
          exact ⟨this.2.2, this.2.1, Or.inl this.1⟩
        | running s2 =>
          rw [hcw] at hc
          exact key s2 (sameThrottle_trans hb hc)
      · rw [if_neg ht]
        exact key s1 hb

/-! ## C2: one notification per sensor episode -/

/-- While the sensor reads LOW at every read, a run of control cycles enters the
notification branch at most once if the flag is 0 and never otherwise. -/
theorem runLoop_low_fires (cycles : List LoopInput) :
    ∀ s : State, (∀ i ∈ cycles, i.sensorAtSend = .LOW ∧ i.sensorAtReset = .LOW) →
      fireCount (runLoop s cycles).state.log ≤
        fireCount s.log + (if s.flag = 0 then 1 else 0) := by
  induction cycles with
  | nil => intro s _; simp [runLoop, Outcome.state]
  | cons i rest ih =>
    intro s hlow
    have hi := hlow i (List.mem_cons_self _ _)
    have hrest : ∀ j ∈ rest, j.sensorAtSend = .LOW ∧ j.sensorAtReset = .LOW :=
      fun j hj => hlow j (List.mem_cons_of_mem _ hj)
    have hstep := loop_throttle s i
    rw [runLoop]
    cases hl : loop s i with
    | restarted s1 =>
      rw [hl] at hstep
      simp only [Outcome.andThen, Outcome.state] at hstep ⊢
      rcases hstep with ⟨hf, _, _⟩ | ⟨h0, _, _, _, hf, _⟩
      · unfold fireCount; rw [hf]; omega
      · unfold fireCount; rw [hf]
        simp [h0]
    | running s1 =>
      rw [hl] at hstep
      simp only [Outcome.andThen, Outcome.state] at hstep ⊢
      have h1 := ih s1 hrest
      rcases hstep with ⟨hf, _, hflag⟩ | ⟨h0, _, _, hone, hf, _⟩
      · have hc : fireCount s1.log = fireCount s.log := by unfold fireCount; rw [hf]
        rcases hflag with hsame | ⟨_, hhigh, _⟩
        · rw [hc, hsame] at h1
          exact h1
        · rw [hi.2] at hhigh
          exact absurd hhigh (by decide)
      · have hc : fireCount s1.log = fireCount s.log + 1 := by
          unfold fireCount; rw [hf]; simp
        rw [hc, hone] at h1
        simp only [h0, if_true]
        simpa using h1

/-- C2. For every sequence of control cycles of `loop()`, started in any state,
during which the IR sensor reads LOW at every read, the notification branch is
entered at most once, whatever the timestamps, the WiFi status readings, the
button and the outcome of the send. -/
theorem sustained_episode_fires_at_most_once (s : State) (cycles : List LoopInput)
    (hlow : ∀ i ∈ cycles, i.sensorAtSend = .LOW ∧ i.sensorAtReset = .LOW) :
    fireCount (runLoop s cycles).state.log ≤ fireCount s.log + 1 := by
  have h := runLoop_low_fires cycles s hlow
  split_ifs at h <;> omega

/-- Scenario: three cycles with the sensor active, the last one 40 s after the
first, enter the notification branch once. -/
theorem sustained_episode_fires_at_most_once_witness :
    (∀ i ∈ sustainedRun, i.sensorAtSend = .LOW ∧ i.sensorAtReset = .LOW) ∧
    fireCount (runLoop normalState sustainedRun).state.log ≤ fireCount normalState.log + 1 :=
  ⟨by decide, sustained_episode_fires_at_most_once normalState sustainedRun (by decide)⟩

/-! ## C3: cooldown between notifications -/

theorem sub32_gt_real {a b k : Nat} (hab : b ≤ a) (h : sub32 (millis a) (millis b) > k) :
    b + k < a := by
  rw [sub32_millis a b hab] at h
  have : (a - b) % U32 ≤ a - b := Nat.mod_le _ _
  omega

/-- One cycle keeps the spacing of the recorded entries, given a real time `L` of
the last initiated send that is not after the reads of the cycle. -/
theorem loop_spaced (s : State) (i : LoopInput) (L : Nat)
    (hL : L ≤ i.tSend) (h12 : i.tSend ≤ i.tSent)
    (hinv : ∀ a ∈ fires s.log, a.2 = true → a.1 ≤ L ∧ s.lastEmailSentTime = millis L)
    (hgood : Spaced (fires s.log)) :
    Spaced (fires (loop s i).state.log) ∧
    ∃ L2, (L2 = L ∨ L2 = i.tSent) ∧
      ∀ a ∈ fires (loop s i).state.log, a.2 = true →
        a.1 ≤ L2 ∧ (loop s i).state.lastEmailSentTime = millis L2 := by
  rcases loop_throttle s i with ⟨hf, hl, _⟩ | ⟨_, _, hcool, _, hf, hl⟩
  · rw [hf, hl]
    exact ⟨hgood, L, Or.inl rfl, hinv⟩
  · rw [hf, hl]
    constructor
    · unfold Spaced
      rw [List.pairwise_append]
      refine ⟨hgood, List.pairwise_singleton _ _, ?_⟩
      intro a ha b hb hok
      simp only [List.mem_singleton] at hb
      subst hb
      obtain ⟨h1, h2⟩ := hinv a ha hok
      rw [h2] at hcool
      have := sub32_gt_real hL hcool
      simp only
      omega
    · cases hok : (i.smtpConnected && i.mailInitiated) with
      | false =>
        refine ⟨L, Or.inl rfl, ?_⟩
        intro a ha hat
        simp only [List.mem_append, List.mem_singleton] at ha
        rcases ha with ha | ha
        · simpa using hinv a ha hat
        · subst ha
          simp at hat
      | true =>
        refine ⟨i.tSent, Or.inr rfl, ?_⟩
        intro a ha hat
        simp only [List.mem_append, List.mem_singleton] at ha
        rcases ha with ha | ha
        · have := (hinv a ha hat).1
          exact ⟨by omega, by simp⟩
        · subst ha
          exact ⟨h12, by simp⟩

theorem runLoop_spaced (cycles : List LoopInput) :
    ∀ (s : State) (L : Nat), (sendTimes cycles).Pairwise (· ≤ ·) →
      (∀ x ∈ sendTimes cycles, L ≤ x) →
      (∀ a ∈ fires s.log, a.2 = true → a.1 ≤ L ∧ s.lastEmailSentTime = millis L) →
      Spaced (fires s.log) →
      Spaced (fires (runLoop s cycles).state.log) := by
  induction cycles with
  | nil => intro s L _ _ _ hg; simpa [runLoop, Outcome.state] using hg
  | cons i rest ih =>
    intro s L hp hL hinv hg
    simp only [sendTimes, List.pairwise_cons, List.mem_cons] at hp hL
    obtain ⟨h1, h2, h3⟩ := hp
    have hLs : L ≤ i.tSend := hL _ (Or.inl rfl)
    have h12 : i.tSend ≤ i.tSent := h1 _ (Or.inl rfl)
    obtain ⟨hg2, L2, hL2, hinv2⟩ := loop_spaced s i L hLs h12 hinv hg
    rw [runLoop]
    cases hl : loop s i with
    | restarted s1 =>
      rw [hl] at hg2
      simpa [Outcome.andThen, Outcome.state] using hg2
    | running s1 =>
      rw [hl] at hg2 hinv2
      simp only [Outcome.andThen, Outcome.state] at hg2 hinv2 ⊢
      refine ih s1 L2 h3 ?_ hinv2 hg2
      intro x hx
      rcases hL2 with rfl | rfl
      · exact hL x (Or.inr (Or.inr hx))
      · exact h2 x hx

/-- C3 as stated fails: after a boot with valid credentials, an attempt at
100000 ms whose `smtp.connect` fails leaves `lastEmailSentTime` untouched; the
sensor clears at 100020 ms and is active again at 100040 ms, and the notification
branch is entered a second time, 40 ms after the first. -/
theorem failed_send_refires_within_cooldown :
    fires (runLoop normalState failedSendRun).state.log = [(100000, false), (100040, false)] ∧
    ¬ AllSpaced (fires (runLoop normalState failedSendRun).state.log) := by
  have h : fires (runLoop normalState failedSendRun).state.log =
      [(100000, false), (100040, false)] := by decide
  refine ⟨h, ?_⟩
  rw [h]
  unfold AllSpaced
  decide

/-- C3, amended. In every run of `loop()` whose `millis()` reads of the
notification branch are taken at non-decreasing real times, every entry into the
notification branch that follows an entry whose send was successfully initiated
(`smtp.connect` and `sendMail` both succeeded) happens more than 30000 ms after
it, also when it belongs to a fresh sensor episode. -/
theorem initiated_send_starts_cooldown (s : State) (cycles : List LoopInput)
    (h0 : fires s.log = [])
    (hmono : (sendTimes cycles).Pairwise (· ≤ ·)) :
    Spaced (fires (runLoop s cycles).state.log) := by
  refine runLoop_spaced cycles s 0 hmono (fun _ _ => Nat.zero_le _) ?_ ?_
  · intro a ha; rw [h0] at ha; simp at ha
  · rw [h0]; exact List.Pairwise.nil

/-- Scenario: send initiated at 100000 ms, sensor cleared, active again at 101500 ms
(no entry) and at 131000 ms (entry). -/
theorem initiated_send_starts_cooldown_witness :
    fires normalState.log = [] ∧ (sendTimes cooldownRun).Pairwise (· ≤ ·) ∧
    fires (runLoop normalState cooldownRun).state.log = [(100000, true), (131000, true)] ∧
    Spaced (fires (runLoop normalState cooldownRun).state.log) :=
  ⟨by decide, by decide, by decide,
    initiated_send_starts_cooldown normalState cooldownRun (by decide) (by decide)⟩

/-! ## Cycles of Normal mode -/

/-- Steps 2 and 3 of a cycle leave the store, the loaded credentials and the radio
mode alone, and record at most the entry into the notification branch. -/
theorem loopNormal_frame (s : State) (i : LoopInput) :
    (loopNormal s i).prefs = s.prefs ∧ (loopNormal s i).wifiMode = s.wifiMode ∧
    (loopNormal s i).wifi_ssid = s.wifi_ssid ∧
    (loopNormal s i).wifi_password = s.wifi_password ∧
    (loopNormal s i).recipient_email = s.recipient_email ∧
    ((loopNormal s i).log = s.log ∨
      (loopNormal s i).log = s.log ++ [.fire i.tSend (i.smtpConnected && i.mailInitiated)]) := by
  by_cases hg : sendGuard s i
  · rw [loopNormal_fire hg]
    exact ⟨rfl, rfl, rfl, rfl, rfl, Or.inr rfl⟩
  · obtain ⟨p, ls, d, he⟩ := loopNormal_idle hg
    rw [he]
    exact ⟨rfl, rfl, rfl, rfl, rfl, Or.inl rfl⟩

/-- A cycle outside Configuration Mode that returns: steps 2 and 3 ran on a state
with the same throttle variables, store and credentials, still outside
Configuration Mode, whose trace gained a connection attempt exactly when the link
was read down in step 1. -/
theorem loop_normal_state {s s1 : State} {i : LoopInput}
    (hm : s.wifiMode ≠ .WIFI_AP) (h : loop s i = .running s1) :
    ∃ s2, s1 = loopNormal s2 i ∧ SameThrottle s s2 ∧ s2.wifiMode ≠ .WIFI_AP ∧
      s2.prefs = s.prefs ∧ s2.wifi_ssid = s.wifi_ssid ∧
      s2.wifi_password = s.wifi_password ∧ s2.recipient_email = s.recipient_email ∧
      s2.log = s.log ++ (if i.connectedAtTop = false then [.connectAttempt] else []) := by
  obtain ⟨t, l, f, d, he⟩ := loop_normal_running hm h
  by_cases ht : i.connectedAtTop = false
  · rw [if_pos ht] at he
    refine ⟨_, he, ⟨rfl, rfl, ?_⟩, by simp, rfl, rfl, rfl, rfl, by simp [ht]⟩
    simp [fires_append, fires]
  · rw [if_neg ht] at he
    refine ⟨_, he, ⟨rfl, rfl, rfl⟩, by simpa using hm, rfl, rfl, rfl, rfl, by simp [ht]⟩

theorem Outcome.eq_running_of_not_restart {o : Outcome} (h : o.isRestart = false) :
    o = .running o.state := by
  cases o with
  | running s => rfl
  | restarted s => simp [Outcome.isRestart] at h

/-! ## C4: cooldown across an episode break -/

/-- C4. Let a notification have been initiated (flag = 1, `lastEmailSentTime` = T)
and let a later cycle of Normal mode read the sensor HIGH: it clears the flag to 0
and keeps T. A following cycle in which the link reads connected and the sensor
LOW at real time `now` does not enter the notification branch and leaves the flag
at 0 when `now - T <= 30000`, and enters it (flag = 1) when `now - T > 30000`,
with no further break of the episode. `now - T` is the difference the code
computes, in 32-bit unsigned arithmetic; it is the elapsed real time whenever
that is below 2^32 ms. -/
theorem cooldown_after_episode_break (s : State) (iB iC : LoopInput)
    (hm : s.wifiMode ≠ .WIFI_AP) (hflag : s.flag = 1)
    (hB : iB.sensorAtReset = .HIGH) (hBr : (loop s iB).isRestart = false)
    (hC1 : iC.connectedAtSend = true) (hC2 : iC.sensorAtSend = .LOW)
    (hCr : (loop (loop s iB).state iC).isRestart = false) :
    (loop s iB).state.flag = 0 ∧
    (loop s iB).state.lastEmailSentTime = s.lastEmailSentTime ∧
    fires (loop s iB).state.log = fires s.log ∧
    (sub32 (millis iC.tSend) s.lastEmailSentTime ≤ EMAIL_COOLDOWN_MS →
      (loop (loop s iB).state iC).state.flag = 0 ∧
      fires (loop (loop s iB).state iC).state.log = fires s.log) ∧
    (sub32 (millis iC.tSend) s.lastEmailSentTime > EMAIL_COOLDOWN_MS →
      (loop (loop s iB).state iC).state.flag = 1 ∧
      fires (loop (loop s iB).state iC).state.log =
        fires s.log ++ [(iC.tSend, iC.smtpConnected && iC.mailInitiated)]) ∧
    (∀ T : Nat, s.lastEmailSentTime = millis T → T ≤ iC.tSend → iC.tSend - T < U32 →
      sub32 (millis iC.tSend) s.lastEmailSentTime = iC.tSend - T) := by
  have hB1 := Outcome.eq_running_of_not_restart hBr
  obtain ⟨s2, he, ⟨hf2, hl2, hg2⟩, hm2, _⟩ := loop_normal_state hm hB1
  have hng : ¬ sendGuard s2 iB := by
    intro hgd
    have := hgd.2.2.1
    rw [hf2, hflag] at this
    exact absurd this (by decide)
  obtain ⟨p, ls, d, hidle⟩ := loopNormal_idle hng
  have hif : (s2.flag = 1 ∧ iB.sensorAtReset = .HIGH) := ⟨hf2.trans hflag, hB⟩
  rw [if_pos hif] at hidle
  rw [hidle] at he
  -- the state after the cycle that cleared the flag
  have hBflag : (loop s iB).state.flag = 0 := by rw [he]
  have hBlast : (loop s iB).state.lastEmailSentTime = s.lastEmailSentTime := by
    rw [he]; exact hl2
  have hBfires : fires (loop s iB).state.log = fires s.log := by rw [he]; exact hg2
  have hBmode : (loop s iB).state.wifiMode ≠ .WIFI_AP := by rw [he]; exact hm2
  have hC := Outcome.eq_running_of_not_restart hCr
  obtain ⟨s3, he3, ⟨hf3, hl3, hg3⟩, _⟩ := loop_normal_state hBmode hC
  refine ⟨hBflag, hBlast, hBfires, ?_, ?_, ?_⟩
  · intro hle
    have hng3 : ¬ sendGuard s3 iC := by
      intro hgd
      have := hgd.2.2.2
      rw [hl3, hBlast] at this
      omega
    obtain ⟨p3, ls3, d3, hidle3⟩ := loopNormal_idle hng3
    have hnf : ¬ (s3.flag = 1 ∧ iC.sensorAtReset = .HIGH) := by
      intro hh
      have := hh.1
      rw [hf3, hBflag] at this
      exact absurd this (by decide)
    rw [if_neg hnf] at hidle3
    rw [he3, hidle3]
    exact ⟨hf3.trans hBflag, hg3.trans hBfires⟩
  · intro hgt
    have hgd : sendGuard s3 iC := by
      refine ⟨hC1, hC2, hf3.trans hBflag, ?_⟩
      rw [hl3, hBlast]
      exact hgt
    rw [he3, loopNormal_fire hgd]
    refine ⟨rfl, ?_⟩
    simp only [fires_append, fires]
    rw [hg3, hBfires]
  · intro T hT hle hlt
    rw [hT, sub32_millis _ _ hle]
    exact Nat.mod_eq_of_lt hlt

/-- Scenario: notification at 0 ms, sensor inactive at 1000 ms, active at 1500 ms
(no entry), active at 31000 ms (entry). -/
theorem cooldown_after_episode_break_witness :
    (loop notifiedState clearedCycle).state.flag = 0 ∧
    fires (loop (loop notifiedState clearedCycle).state
      (cycleAt 1500 (released 1500) .LOW true)).state.log = [] ∧
    fires (loop (loop notifiedState clearedCycle).state
      (cycleAt 31000 (released 31000) .LOW true)).state.log = [(31000, true)] ∧
    fires (runLoop notifiedState breakRun).state.log = [(31000, true)] :=
  have h1 := cooldown_after_episode_break notifiedState clearedCycle
    (cycleAt 1500 (released 1500) .LOW true)
    (by decide) (by decide) (by decide) (by decide) (by decide) (by decide) (by decide)
  have h2 := cooldown_after_episode_break notifiedState clearedCycle
    (cycleAt 31000 (released 31000) .LOW true)
    (by decide) (by decide) (by decide) (by decide) (by decide) (by decide) (by decide)
  ⟨h1.1, (h1.2.2.2.1 (by decide)).2, (h2.2.2.2.2.1 (by decide)).2, by decide⟩

/-! ## C9: link loss at run time -/

/-- A cycle outside Configuration Mode that records no confirmed button press
does not restart. -/
theorem loop_running_of_no_action {s : State} {i : LoopInput}
    (hm : s.wifiMode ≠ .WIFI_AP)
    (hb : actionCount (loop s i).state.log = actionCount s.log) :
    loop s i = .running (loop s i).state := by
  cases h : loop s i with
  | running s1 => rfl
  | restarted s1 =>
    rw [h] at hb
    rcases loop_restarted h with ⟨_, t, pre, hpre, hlog⟩ | ⟨hap, _⟩
    · simp only [Outcome.state] at hb
      rw [hlog] at hb
      rcases hpre with rfl | rfl <;>
        simp [actionCount_append, actionCount] at hb
    · exact absurd hap hm

/-- C9. For every control cycle of `loop()` outside Configuration Mode in which
the confirmed-press action of the button is not triggered, and for all WiFi
status readings (a reconnect that uses up its 40 retries included): the cycle
does not restart, the persisted store and the loaded credentials are unchanged,
neither `preferences.clear()` nor `ESP.restart()` is called, the device stays in
Normal mode, and a following cycle that reads the link down in step 1 attempts
the reconnect again. -/
theorem link_loss_keeps_credentials (s : State) (i : LoopInput)
    (hm : s.wifiMode ≠ .WIFI_AP)
    (hb : actionCount (loop s i).state.log = actionCount s.log) :
    (loop s i).isRestart = false ∧
    (loop s i).state.prefs = s.prefs ∧
    (loop s i).state.wifi_ssid = s.wifi_ssid ∧
    (loop s i).state.wifi_password = s.wifi_password ∧
    (loop s i).state.recipient_email = s.recipient_email ∧
    (∃ extra, (loop s i).state.log = s.log ++ extra ∧
      Event.wipe ∉ extra ∧ Event.restart ∉ extra) ∧
    (loop s i).state.wifiMode ≠ .WIFI_AP ∧
    (∀ i2 : LoopInput, i2.connectedAtTop = false →
      actionCount (loop (loop s i).state i2).state.log =
        actionCount (loop s i).state.log →
      ∃ rest, (loop (loop s i).state i2).state.log =
        (loop s i).state.log ++ Event.connectAttempt :: rest) := by
  have hrun := loop_running_of_no_action hm hb
  obtain ⟨s2, he, _, hm2, hp2, hs2, hw2, hr2, hl2⟩ := loop_normal_state hm hrun
  obtain ⟨f1, f2, f3, f4, f5, f6⟩ := loopNormal_frame s2 i
  rw [← he] at f1 f2 f3 f4 f5 f6
  have hmode : (loop s i).state.wifiMode ≠ .WIFI_AP := by rw [f2]; exact hm2
  refine ⟨by rw [hrun]; rfl, f1.trans hp2, f3.trans hs2, f4.trans hw2, f5.trans hr2,
    ?_, hmode, ?_⟩
  · rcases f6 with h6 | h6
    · refine ⟨_, by rw [h6, hl2], ?_, ?_⟩ <;> split_ifs <;> simp
    · refine ⟨(if i.connectedAtTop = false then [Event.connectAttempt] else []) ++
        [.fire i.tSend (i.smtpConnected && i.mailInitiated)], ?_, ?_, ?_⟩
      · rw [h6, hl2, List.append_assoc]
      · split_ifs <;> simp
      · split_ifs <;> simp
  · intro i2 ht hb2
    have hrun2 := loop_running_of_no_action hmode hb2
    obtain ⟨s3, he3, _, _, _, _, _, _, hl3⟩ := loop_normal_state hmode hrun2
    obtain ⟨_, _, _, _, _, g6⟩ := loopNormal_frame s3 i2
    rw [← he3] at g6
    rw [if_pos ht] at hl3
    rcases g6 with h6 | h6
    · exact ⟨[], by rw [h6, hl3]⟩
    · exact ⟨[.fire i2.tSend (i2.smtpConnected && i2.mailInitiated)], by
        rw [h6, hl3, List.append_assoc]; rfl⟩

/-- Scenario: a cycle at 60000 ms whose reconnect attempt uses up its 40 retries
keeps the stored credentials and does not restart. -/
theorem link_loss_keeps_credentials_witness :
    normalState.wifiMode ≠ .WIFI_AP ∧
    (loop normalState (lostLinkCycle 60000)).isRestart = false ∧
    (loop normalState (lostLinkCycle 60000)).state.prefs = homeCreds :=
  have h := link_loss_keeps_credentials normalState (lostLinkCycle 60000)
    (by decide) (by decide)
  ⟨by decide, h.1, h.2.1⟩

/-! ## C10: first notification after boot -/

/-- With stored credentials, a `setup()` that returns leaves the device in Normal
mode with the flag at 0, the cooldown primed to `-EMAIL_COOLDOWN_MS` and no
notification recorded. -/
theorem setup_running_normal {prefs : Prefs} {log : List Event} {si : SetupInput} {s : State}
    (hs : prefs.getString "ssid" "" ≠ "") (hr : prefs.getString "recipient" "" ≠ "")
    (h : setup (initState prefs log) si = .running s) :
    s.flag = 0 ∧ s.lastEmailSentTime = neg32 EMAIL_COOLDOWN_MS ∧ fires s.log = fires log ∧
    s.wifiMode = .WIFI_STA ∧ s.prefs = prefs := by
  have hc : ¬ (prefs.getString "ssid" "" = "" ∨ prefs.getString "recipient" "" = "") := by
    simp [hs, hr]
  unfold setup at h
  simp only [initState] at h
  rw [if_neg hc] at h
  cases hcw : connectToWiFi
      { wifi_ssid := prefs.getString "ssid" "", wifi_password := prefs.getString "password" "",
        recipient_email := prefs.getString "recipient" "", flag := 0, ledPreviousMillis := 0,
        ledState := .HIGH, lastEmailSentTime := 0, lastButtonPressTime := 0,
        lastButtonState := .HIGH, buttonPressedFlag := false, led := .HIGH,
        wifiMode := .WIFI_OFF, prefs := prefs, log := log } si.connect with
  | restarted s1 => rw [hcw] at h; simp [Outcome.andThen] at h
  | running s1 =>
    obtain ⟨t, l, f, d, rfl⟩ := connectToWiFi_running hcw
    rw [hcw] at h
    simp only [Outcome.andThen] at h
    split_ifs at h
    simp at h
    subst h
    exact ⟨rfl, rfl, by simp [fires_append, fires], rfl, rfl⟩

/-- The recorded entries only grow along a run. -/
theorem runLoop_fires_grow (cycles : List LoopInput) :
    ∀ s : State, ∃ extra, fires (runLoop s cycles).state.log = fires s.log ++ extra := by
  induction cycles with
  | nil => intro s; exact ⟨[], by simp [runLoop, Outcome.state]⟩
  | cons i rest ih =>
    intro s
    have hstep : ∃ e1, fires (loop s i).state.log = fires s.log ++ e1 := by
      rcases loop_throttle s i with ⟨hf, _, _⟩ | ⟨_, _, _, _, hf, _⟩
      · exact ⟨[], by simp [hf]⟩
      · exact ⟨_, hf⟩
    obtain ⟨e1, h1⟩ := hstep
    rw [runLoop]
    cases hl : loop s i with
    | restarted s1 =>
      rw [hl] at h1
      exact ⟨e1, by simpa [Outcome.andThen, Outcome.state] using h1⟩
    | running s1 =>
      rw [hl] at h1
      simp only [Outcome.state] at h1
      simp only [Outcome.andThen]
      obtain ⟨e2, h2⟩ := ih s1
      exact ⟨e1 ++ e2, by rw [h2, h1, List.append_assoc]⟩

/-- A run in Normal mode that returns without having recorded a notification has
kept the flag at 0 and the cooldown reference unchanged. -/
theorem runLoop_quiet (cycles : List LoopInput) :
    ∀ s0 s : State, runLoop s0 cycles = .running s → s0.wifiMode ≠ .WIFI_AP → s0.flag = 0 →
      fires s.log = fires s0.log →
      s.flag = 0 ∧ s.lastEmailSentTime = s0.lastEmailSentTime ∧ s.wifiMode ≠ .WIFI_AP := by
  induction cycles with
  | nil =>
    intro s0 s h hm hf _
    simp [runLoop] at h
    subst h
    exact ⟨hf, rfl, hm⟩
  | cons i rest ih =>
    intro s0 s h hm hf hq
    rw [runLoop] at h
    cases hl : loop s0 i with
    | restarted s1 => rw [hl] at h; simp [Outcome.andThen] at h
    | running s1 =>
      rw [hl] at h
      simp only [Outcome.andThen] at h
      obtain ⟨extra, hgrow⟩ := runLoop_fires_grow rest s1
      rw [h] at hgrow
      simp only [Outcome.state] at hgrow
      have hmode : s1.wifiMode ≠ .WIFI_AP := by
        obtain ⟨s2, he, _, hm2, _⟩ := loop_normal_state hm hl
        rw [he, (loopNormal_frame s2 i).2.1]
        exact hm2
      have hthr := loop_throttle s0 i
      rw [hl] at hthr
      simp only [Outcome.state] at hthr
      rcases hthr with ⟨hf1, hl1, hflag⟩ | ⟨_, _, _, _, hf1, _⟩
      · have hflag1 : s1.flag = 0 := by
          rcases hflag with hsame | ⟨h1, _⟩
          · rw [hsame]; exact hf
          · rw [hf] at h1; exact absurd h1 (by decide)
        obtain ⟨a, b, c⟩ := ih s1 s h hmode hflag1 (by rw [hq, hf1])
        exact ⟨a, b.trans hl1, c⟩
      · rw [hf1, hq] at hgrow
        have := congrArg List.length hgrow
        simp at this

/-- C10 as stated fails: after a boot with valid credentials the cooldown
reference is 2^32 - 30000 = 4294937296; a connected cycle with the sensor LOW and
the flag at 0 whose `millis()` reads 4294937296 (the start of the last 30 s before
the counter wraps) computes a difference of 0 and does not enter the notification
branch. -/
theorem no_email_before_wraparound :
    normalState.flag = 0 ∧ normalState.lastEmailSentTime = 4294937296 ∧
    lateCycle.connectedAtSend = true ∧ lateCycle.sensorAtSend = .LOW ∧
    millis lateCycle.tSend = 4294937296 ∧
    sub32 (millis lateCycle.tSend) normalState.lastEmailSentTime = 0 ∧
    (loop normalState lateCycle).isRestart = false ∧
    fires (loop normalState lateCycle).state.log = [] := by
  decide

/-- C10, amended. Initialising `lastEmailSentTime` to `-EMAIL_COOLDOWN_MS`
(2^32 - 30000 in 32-bit unsigned arithmetic) makes the cooldown test compute
`(now + 30000) mod 2^32`: after a boot with stored credentials and as long as no
notification was recorded, a cycle that reads the link connected and the sensor
LOW at `now = millis()` enters the notification branch when
`0 < now < 2^32 - 30000`, without waiting 30 s, and does not enter it when
`now = 0` or `now >= 2^32 - 30000`. -/
theorem immediate_email_after_boot (prefs : Prefs) (log : List Event) (si : SetupInput)
    (cycles : List LoopInput) (s : State) (i : LoopInput)
    (hs : prefs.getString "ssid" "" ≠ "") (hr : prefs.getString "recipient" "" ≠ "")
    (hboot : boot prefs log si cycles = .running s)
    (hquiet : fires s.log = fires log)
    (hconn : i.connectedAtSend = true) (hlow : i.sensorAtSend = .LOW)
    (hrun : (loop s i).isRestart = false) :
    s.flag = 0 ∧ s.lastEmailSentTime = 4294937296 ∧
    sub32 (millis i.tSend) s.lastEmailSentTime = (millis i.tSend + 30000) % U32 ∧
    ((0 < millis i.tSend ∧ millis i.tSend < 4294937296) →
      fires (loop s i).state.log =
        fires s.log ++ [(i.tSend, i.smtpConnected && i.mailInitiated)]) ∧
    (¬ (0 < millis i.tSend ∧ millis i.tSend < 4294937296) →
      fires (loop s i).state.log = fires s.log ∧ (loop s i).state.flag = 0) := by
  unfold boot at hboot
  cases hsu : setup (initState prefs log) si with
  | restarted s0 => rw [hsu] at hboot; simp [Outcome.andThen] at hboot
  | running s0 =>
    rw [hsu] at hboot
    simp only [Outcome.andThen] at hboot
    obtain ⟨a0, b0, c0, d0, _⟩ := setup_running_normal hs hr hsu
    have hm0 : s0.wifiMode ≠ .WIFI_AP := by rw [d0]; decide
    obtain ⟨hflag, hlast, hmode⟩ := runLoop_quiet cycles s0 s hboot hm0 a0 (by rw [hquiet, c0])
    have hlast2 : s.lastEmailSentTime = 4294937296 := by rw [hlast, b0]; decide
    have hsub : sub32 (millis i.tSend) s.lastEmailSentTime = (millis i.tSend + 30000) % U32 := by
      rw [hlast2]
      unfold sub32 millis U32
      omega
    have hC := Outcome.eq_running_of_not_restart hrun
    obtain ⟨s3, he3, ⟨hf3, hl3, hg3⟩, _⟩ := loop_normal_state hmode hC
    refine ⟨hflag, hlast2, hsub, ?_, ?_⟩
    · intro hrange
      have hgd : sendGuard s3 i := by
        refine ⟨hconn, hlow, hf3.trans hflag, ?_⟩
        rw [hl3, hsub]
        unfold EMAIL_COOLDOWN_MS U32
        omega
      rw [he3, loopNormal_fire hgd]
      simp only [fires_append, fires]
      rw [hg3]
    · intro hrange
      have hng : ¬ sendGuard s3 i := by
        intro hgd
        have h4 := hgd.2.2.2
        rw [hl3, hsub] at h4
        have hlt : millis i.tSend < U32 := Nat.mod_lt _ (by unfold U32; omega)
        unfold EMAIL_COOLDOWN_MS U32 at *
        omega
      obtain ⟨p3, ls3, d3, hidle3⟩ := loopNormal_idle hng
      have hnf : ¬ (s3.flag = 1 ∧ i.sensorAtReset = .HIGH) := by
        intro hh
        have := hh.1
        rw [hf3, hflag] at this
        exact absurd this (by decide)
      rw [if_neg hnf] at hidle3
      rw [he3, hidle3]
      exact ⟨hg3, hf3.trans hflag⟩

/-- Scenario: sensor active 5000 ms after boot, the notification branch is
entered at once. -/
theorem immediate_email_after_boot_witness :
    homeCreds.getString "ssid" "" ≠ "" ∧ homeCreds.getString "recipient" "" ≠ "" ∧
    fires (loop normalState (cycleAt 5000 (released 5000) .LOW true)).state.log
      = [(5000, true)] :=
  have h := immediate_email_after_boot homeCreds [] linkUpSetup [] normalState
    (cycleAt 5000 (released 5000) .LOW true)
    (by decide) (by decide) rfl (by decide) (by decide) (by decide) (by decide)
  ⟨by decide, by decide, h.2.2.2.1 (by decide)⟩

/-! ## C8: a wipe leads to Configuration Mode -/

/-- Whenever `setup()` restarts, the store has been wiped. -/
theorem setup_restarted {s s1 : State} {si : SetupInput} (h : setup s si = .restarted s1) :
    s1.prefs = [] ∧ Event.wipe ∈ s1.log := by
  unfold setup at h
  simp only at h
  by_cases hc : s.prefs.getString "ssid" "" = "" ∨ s.prefs.getString "recipient" "" = ""
  · rw [if_pos hc] at h
    simp at h
  · rw [if_neg hc] at h
    cases hcw : connectToWiFi
        { s with
          led := .HIGH
          wifi_ssid := s.prefs.getString "ssid" ""
          wifi_password := s.prefs.getString "password" ""
          recipient_email := s.prefs.getString "recipient" "" } si.connect with
    | restarted s2 =>
      rw [hcw] at h
      simp [Outcome.andThen] at h
      subst h
      obtain ⟨h2, n, _, h3⟩ := connectToWiFi_restarted hcw
      exact ⟨h2, by simp [h3]⟩
    | running s2 =>
      rw [hcw] at h
      simp only [Outcome.andThen] at h
      by_cases ha : si.connectedAfter = true
      · rw [if_pos ha] at h
        simp at h
      · rw [if_neg ha] at h
        simp at h
        subst h
        exact ⟨rfl, by simp⟩

/-- A boot from an empty store selects Configuration Mode. -/
theorem setup_empty_store (log : List Event) (si : SetupInput) :
    ∃ s2, setup (initState [] log) si = .running s2 ∧
      s2.wifi_ssid = "" ∧ s2.wifi_password = "" ∧ s2.recipient_email = "" ∧
      s2.wifiMode = .WIFI_AP ∧ s2.prefs = [] ∧ s2.log = log ++ [.startAP] := by
  have h : setup (initState [] log) si = .running (startAPMode
      { initState [] log with led := .LOW }) := by
    unfold setup
    simp only [initState, Prefs.getString]
    rw [if_pos (Or.inl trivial)]
  exact ⟨_, h, by simp [startAPMode, initState]⟩

/-- C8. For every state and store content, once a credential wipe has run, in
the confirmed button-press action of `checkButton()` or in a `setup()` that ends
in a restart, the store holds none of ssid, password and recipient (every
`getString` returns its default), and the next boot, whatever it reads, loads
ssid = "" and recipient = "" and selects Configuration Mode. -/
theorem wipe_leads_to_config_mode (s s1 : State) (b : ButtonInput) (si : SetupInput)
    (h : checkButton s b = .restarted s1 ∨ setup s si = .restarted s1) :
    Event.wipe ∈ s1.log ∧
    (∀ key dflt : String, s1.prefs.getString key dflt = dflt) ∧
    ∀ si2 : SetupInput, ∃ s2, setup (initState s1.prefs s1.log) si2 = .running s2 ∧
      s2.wifi_ssid = "" ∧ s2.wifi_password = "" ∧ s2.recipient_email = "" ∧
      s2.wifiMode = .WIFI_AP ∧ s2.log = s1.log ++ [.startAP] := by
  have hw : s1.prefs = [] ∧ Event.wipe ∈ s1.log := by
    rcases h with h | h
    · obtain ⟨_, h2, h3⟩ := checkButton_restarted h
      exact ⟨h2, by simp [h3]⟩
    · exact setup_restarted h
  obtain ⟨hp, hwipe⟩ := hw
  refine ⟨hwipe, ?_, ?_⟩
  · intro key dflt
    rw [hp]
    rfl
  · intro si2
    rw [hp]
    obtain ⟨s2, h1, h2, h3, h4, h5, _, h7⟩ := setup_empty_store s1.log si2
    exact ⟨s2, h1, h2, h3, h4, h5, h7⟩

/-- Scenario: a press confirmed at 1060 ms, and a boot whose connection attempt
fails, both leave an empty store. -/
theorem wipe_leads_to_config_mode_witness :
    (checkButton pressSeenState (pressed 1060)).isRestart = true ∧
    (setup (initState homeCreds []) linkDownSetup).isRestart = true ∧
    (checkButton pressSeenState (pressed 1060)).state.prefs.getString "ssid" "x" = "x" ∧
    (setup (initState homeCreds []) linkDownSetup).state.prefs.getString "recipient" "x" = "x" :=
  have h1 := wipe_leads_to_config_mode pressSeenState
    (checkButton pressSeenState (pressed 1060)).state (pressed 1060) linkDownSetup (Or.inl rfl)
  have h2 := wipe_leads_to_config_mode (initState homeCreds [])
    (setup (initState homeCreds []) linkDownSetup).state (pressed 1060) linkDownSetup (Or.inr rfl)
  ⟨by decide, by decide, h1.2.1 "ssid" "x", h2.2.1 "recipient" "x"⟩

/-! ## C7: bounded connection attempt at boot -/

/-- With the link read down at every test and the button released at every poll,
the retry loop runs its body exactly 40 times. -/
theorem connectRetry_exhaust (env : Nat → RetryInput)
    (hdown : ∀ n, (env n).connectedAtTest = false ∧ (env n).connectedAtBreak = false)
    (hbtn : ∀ n, (env n).button.level = .HIGH) :
    ∀ (fuel retries : Nat) (s : State), retries + fuel = 40 →
      (connectRetry env fuel retries s).2 = 40 := by
  intro fuel
  induction fuel with
  | zero => intro retries s h; simpa [connectRetry] using h
  | succ n ih =>
    intro retries s h
    rw [connectRetry_succ]
    have hc : (env retries).connectedAtTest = false ∧ retries < 40 :=
      ⟨(hdown retries).1, by omega⟩
    rw [if_pos hc]
    cases hb : checkButton s (env retries).button with
    | restarted s2 =>
      have := (checkButton_restarted hb).1
      rw [hbtn retries] at this
      exact absurd this (by decide)
    | running s2 =>
      simp only [(hdown retries).2]
      exact ih _ _ (by omega)

/-- With the button released at every poll, a connection attempt returns, and
leaves the store and, up to the recorded attempt, the trace as they were. -/
theorem connectToWiFi_released (s : State) (i : ConnectInput)
    (hbtn : ∀ n, (i.retry n).button.level = .HIGH) :
    ∃ s1, connectToWiFi s i = .running s1 ∧ s1.prefs = s.prefs ∧
      s1.log = s.log ++ [.connectAttempt] := by
  cases h : connectToWiFi s i with
  | running s1 =>
    obtain ⟨t, l, f, d, rfl⟩ := connectToWiFi_running h
    exact ⟨_, rfl, rfl, rfl⟩
  | restarted s1 =>
    obtain ⟨_, n, hlow, _⟩ := connectToWiFi_restarted h
    rw [hbtn n] at hlow
    exact absurd hlow (by decide)

/-- C7 as stated fails: with valid credentials and the button released, the link
is reported up at retry 3 (the retry loop ends after 3 iterations, and the status
read at the end of `connectToWiFi()` is still up), but the status that `setup()`
reads next is down: `setup()` clears the credentials and restarts. -/
theorem association_then_drop_wipes :
    (flappingSetup.connect.retry 3).connectedAtTest = true ∧
    (connectRetry flappingSetup.connect.retry 40 0 (initState homeCreds [])).2 = 3 ∧
    (∀ n, (flappingSetup.connect.retry n).button.level = .HIGH) ∧
    (setup (initState homeCreds []) flappingSetup).isRestart = true ∧
    (setup (initState homeCreds []) flappingSetup).state.prefs = [] ∧
    (setup (initState homeCreds []) flappingSetup).state.log =
      [.connectAttempt, .delay 10000, .wipe, .restart] := by
  refine ⟨by decide, by decide, fun n => rfl, by decide, by decide, by decide⟩

/-- C7, amended. At boot with stored credentials and the button released at every
poll, for all WiFi status readings: `setup()` clears the persisted credentials
and restarts exactly when the status it reads after `connectToWiFi()` has
returned is not connected. So it always does when every status read is down
(the retry loop then runs all its 40 iterations), and it never does when the
link is up at that read, on whichever retry the association was reported. For
all inputs and states the retry loop of `connectToWiFi()` runs at most 40
iterations, and more fuel than 40 does not change its result. -/
theorem boot_connection_outcome (prefs : Prefs) (log : List Event) (si : SetupInput)
    (hs : prefs.getString "ssid" "" ≠ "") (hr : prefs.getString "recipient" "" ≠ "")
    (hbtn : ∀ n, (si.connect.retry n).button.level = .HIGH) :
    (si.connectedAfter = false →
      (setup (initState prefs log) si).isRestart = true ∧
      (setup (initState prefs log) si).state.prefs = [] ∧
      (setup (initState prefs log) si).state.log =
        log ++ [.connectAttempt, .delay 10000, .wipe, .restart]) ∧
    (si.connectedAfter = true →
      (setup (initState prefs log) si).isRestart = false ∧
      (setup (initState prefs log) si).state.prefs = prefs ∧
      (setup (initState prefs log) si).state.log = log ++ [.connectAttempt]) ∧
    ((∀ n, (si.connect.retry n).connectedAtTest = false ∧
        (si.connect.retry n).connectedAtBreak = false) →
      ∀ s : State, (connectRetry si.connect.retry 40 0 s).2 = 40) ∧
    (∀ (env : Nat → RetryInput) (s : State), (connectRetry env 40 0 s).2 ≤ 40 ∧
      ∀ extra : Nat, connectRetry env (40 + extra) 0 s = connectRetry env 40 0 s) := by
  have hc : ¬ (prefs.getString "ssid" "" = "" ∨ prefs.getString "recipient" "" = "") := by
    simp [hs, hr]
  have hset : setup (initState prefs log) si =
      (connectToWiFi { initState prefs log with
        led := .HIGH
        wifi_ssid := prefs.getString "ssid" ""
        wifi_password := prefs.getString "password" ""
        recipient_email := prefs.getString "recipient" "" } si.connect).andThen fun s2 =>
        if si.connectedAfter then
          .running { s2 with lastEmailSentTime := neg32 EMAIL_COOLDOWN_MS }
        else
          .restarted { s2 with
            prefs := s2.prefs.clear
            log := s2.log ++ [.delay 10000, .wipe, .restart] } := by
    unfold setup
    simp only [initState]
    rw [if_neg hc]
  obtain ⟨s1, h1, hp1, hl1⟩ := connectToWiFi_released { initState prefs log with
        led := .HIGH
        wifi_ssid := prefs.getString "ssid" ""
        wifi_password := prefs.getString "password" ""
        recipient_email := prefs.getString "recipient" "" } si.connect hbtn
  rw [h1] at hset
  simp only [Outcome.andThen] at hset
  refine ⟨?_, ?_, ?_, ?_⟩
  · intro ha
    rw [hset]
    simp only [ha, Bool.false_eq_true, if_false, Outcome.isRestart, Outcome.state, Prefs.clear,
      hl1, initState]
    simp
  · intro ha
    rw [hset]
    simp only [ha, if_true, Outcome.isRestart, Outcome.state, hp1, hl1, initState]
    simp
  · intro hdown s
    exact connectRetry_exhaust _ hdown hbtn 40 0 s rfl
  · intro env s
    refine ⟨connectRetry_count env 40 0 s (by omega), ?_⟩
    intro extra
    induction extra with
    | zero => rfl
    | succ k ih =>
      rw [← ih]
      exact connectRetry_fuel env (40 + k) 0 s (by omega)

/-- Scenario: link down at every read (40 iterations, wipe and restart), and link
up at once (credentials kept). -/
theorem boot_connection_outcome_witness :
    homeCreds.getString "ssid" "" ≠ "" ∧ homeCreds.getString "recipient" "" ≠ "" ∧
    (setup (initState homeCreds []) linkDownSetup).isRestart = true ∧
    (setup (initState homeCreds []) linkDownSetup).state.prefs = [] ∧
    (setup (initState homeCreds []) linkUpSetup).isRestart = false ∧
    (setup (initState homeCreds []) linkUpSetup).state.prefs = homeCreds ∧
    (connectRetry linkDown.retry 40 0 (initState homeCreds [])).2 = 40 :=
  have h1 := boot_connection_outcome homeCreds [] linkDownSetup
    (by decide) (by decide) (fun _ => rfl)
  have h2 := boot_connection_outcome homeCreds [] linkUpSetup
    (by decide) (by decide) (fun _ => rfl)
  ⟨by decide, by decide, (h1.1 rfl).1, (h1.1 rfl).2.1, (h2.2.1 rfl).1, (h2.2.1 rfl).2.1,
    h1.2.2.1 (fun _ => ⟨rfl, rfl⟩) _⟩

/-! ## C5: debounce of the reset button -/

/-- A poll that returns records the level it read, and keeps the latch clear if it
was clear. -/
theorem checkButton_running_debounce {s s1 : State} {b : ButtonInput}
    (h : checkButton s b = .running s1) :
    s1.lastButtonState = b.level ∧
    s1.lastButtonPressTime =
      (if b.level ≠ s.lastButtonState then millis b.tChange else s.lastButtonPressTime) ∧
    (s.buttonPressedFlag = false → s1.buttonPressedFlag = false) := by
  unfold checkButton at h
  simp only at h
  split_ifs at h <;> simp at h <;> subst h <;> simp_all

/-- A poll that restarts read the button LOW more than the debounce delay after
the time held by the debounce timer. -/
theorem checkButton_restarted_debounce {s s1 : State} {b : ButtonInput}
    (h : checkButton s b = .restarted s1) :
    b.level = .LOW ∧
    sub32 (millis b.tCheck)
      (if b.level ≠ s.lastButtonState then millis b.tChange else s.lastButtonPressTime)
        > DEBOUNCE_DELAY_MS := by
  unfold checkButton at h
  simp only at h
  split_ifs at h <;> simp at h <;> simp_all

/-- Invariant behind C5, from any state: a confirmed press at the end of a run of
polls comes more than the debounce delay after the last observed level change, or,
if no level change was observed at all, after the initial timer value. -/
theorem runPolls_restart_cause (pre : List ButtonInput) :
    ∀ (s0 s s1 : State) (p : ButtonInput),
      runPolls s0 pre = .running s → checkButton s p = .restarted s1 →
      (∃ a q b, pre ++ [p] = a ++ q :: b ∧ q.level ≠ levelBefore s0.lastButtonState a ∧
        (∀ x ∈ b, x.level = q.level) ∧
        sub32 (millis p.tCheck) (millis q.tChange) > DEBOUNCE_DELAY_MS) ∨
      ((∀ x ∈ pre ++ [p], x.level = s0.lastButtonState) ∧
        sub32 (millis p.tCheck) s0.lastButtonPressTime > DEBOUNCE_DELAY_MS) := by
  induction pre with
  | nil =>
    intro s0 s s1 p hrun hact
    simp [runPolls] at hrun
    subst hrun
    obtain ⟨_, h2⟩ := checkButton_restarted_debounce hact
    by_cases hch : p.level ≠ s0.lastButtonState
    · rw [if_pos hch] at h2
      left
      exact ⟨[], p, [], rfl, hch, by simp, h2⟩
    · rw [if_neg hch] at h2
      right
      refine ⟨?_, h2⟩
      intro x hx
      simp at hx
      subst hx
      exact not_not.mp hch
  | cons x rest ih =>
    intro s0 s s1 p hrun hact
    rw [runPolls] at hrun
    cases hx : checkButton s0 x with
    | restarted s2 => rw [hx] at hrun; simp [Outcome.andThen] at hrun
    | running s2 =>
      rw [hx] at hrun
      simp only [Outcome.andThen] at hrun
      obtain ⟨hlvl, htime, _⟩ := checkButton_running_debounce hx
      rcases ih s2 s s1 p hrun hact with ⟨a, q, b, heq, hq, hb, ht⟩ | ⟨hall, ht⟩
      · left
        refine ⟨x :: a, q, b, by simp [heq], ?_, hb, ht⟩
        rw [hlvl] at hq
        exact hq
      · rw [hlvl] at hall
        by_cases hch : x.level ≠ s0.lastButtonState
        · left
          rw [htime, if_pos hch] at ht
          exact ⟨[], x, rest ++ [p], rfl, hch, hall, ht⟩
        · right
          rw [htime, if_neg hch] at ht
          have hxe : x.level = s0.lastButtonState := not_not.mp hch
          refine ⟨?_, ht⟩
          intro y hy
          simp only [List.cons_append, List.mem_cons] at hy
          rcases hy with rfl | hy
          · exact hxe
          · rw [← hxe]; exact hall y hy

/-- C5. For every sequence of polls of `checkButton()` from a state whose last
seen level is HIGH, as at power-up, each poll with the level it reads and the
real times of its `millis()` calls: if the reset action (credential wipe and
restart) is triggered at poll `p`, then `p` read LOW, and there is a most recent
poll `q` whose level differed from the level of the poll before it (every poll
after `q` up to `p` read the same level as `q`) such that more than 50 ms elapsed
between the timer reset of `q` and the debounce test of `p`: in the 32-bit
difference the code computes, and in real time when the clock reads are ordered.
Hence a press whose LOW polls span 50 ms or less never triggers the action. -/
theorem reset_needs_stable_low (s0 s s1 : State) (pre : List ButtonInput) (p : ButtonInput)
    (hlast : s0.lastButtonState = .HIGH)
    (hrun : runPolls s0 pre = .running s) (hact : checkButton s p = .restarted s1) :
    p.level = .LOW ∧
    ∃ a q b, pre ++ [p] = a ++ q :: b ∧ q.level ≠ levelBefore .HIGH a ∧
      q.level = .LOW ∧ (∀ x ∈ b, x.level = q.level) ∧
      sub32 (millis p.tCheck) (millis q.tChange) > DEBOUNCE_DELAY_MS ∧
      (q.tChange ≤ p.tCheck → q.tChange + DEBOUNCE_DELAY_MS < p.tCheck) := by
  have hlow := (checkButton_restarted hact).1
  refine ⟨hlow, ?_⟩
  rcases runPolls_restart_cause pre s0 s s1 p hrun hact with ⟨a, q, b, heq, hq, hb, ht⟩ | ⟨hall, _⟩
  · rw [hlast] at hq
    refine ⟨a, q, b, heq, hq, ?_, hb, ht, fun hle => sub32_gt_real hle ht⟩
    have hlast2 : (a ++ q :: b).getLast? = some p := by rw [← heq]; simp
    rw [List.getLast?_append_cons] at hlast2
    rcases List.mem_cons.mp (List.mem_of_getLast?_eq_some hlast2) with h1 | h1
    · rw [← h1]; exact hlow
    · rw [← hb p h1]; exact hlow
  · have := hall p (by simp)
    rw [hlast, hlow] at this
    exact absurd this (by decide)

/-- Scenario: button read LOW at 1000 ms; a poll at 1040 ms does not trigger the
reset action, a poll at 1060 ms does. -/
theorem reset_needs_stable_low_witness :
    normalState.lastButtonState = .HIGH ∧
    (runPolls normalState [pressed 1000]).isRestart = false ∧
    (checkButton pressSeenState (pressed 1040)).isRestart = false ∧
    (checkButton pressSeenState (pressed 1060)).isRestart = true ∧
    (pressed 1060).level = .LOW :=
  ⟨by decide, by decide, by decide, by decide,
    (reset_needs_stable_low normalState pressSeenState
      (checkButton pressSeenState (pressed 1060)).state [pressed 1000] (pressed 1060)
      (by decide) rfl rfl).1⟩

/-! ## C6: one confirmed press per contiguous press -/

/-- C6, evaluated at a button held LOW from 1000 ms on, every poll reading LOW.
The first boot confirms the press at 1060 ms, sets the latch `buttonPressedFlag`
("to prevent repeated actions"), wipes and restarts. The restart re-initialises
the latch to false and `lastButtonState` to HIGH, so the second boot, started at
3400 ms (after the 2100 ms of delays of the action), takes the level it reads 10 ms
later for a new press and confirms it 60 ms after that, with no poll reading HIGH
in between: two wipe-and-restart sequences for one contiguous press. -/
theorem held_button_confirmed_again_after_restart :
    (∀ b ∈ heldBoots, b.ForallPolls fun p => p.level = .LOW) ∧
    wellTimed homeCreds [] heldBoots = true ∧
    (boot homeCreds [] heldSetup [heldCycle 1000, heldCycle 1060]).isRestart = true ∧
    (boot homeCreds [] heldSetup [heldCycle 1000, heldCycle 1060]).state.buttonPressedFlag
      = true ∧
    (boot homeCreds [] heldSetup [heldCycle 1000, heldCycle 1060]).state.prefs = [] ∧
    (initState [] []).buttonPressedFlag = false ∧
    (initState [] []).lastButtonState = .HIGH ∧
    runBoots homeCreds [] heldBoots =
      [.connectAttempt, .buttonAction 1060, .delay 100, .wipe, .delay 2000, .restart,
       .startAP, .buttonAction 70, .delay 100, .wipe, .delay 2000, .restart] ∧
    actionCount (runBoots homeCreds [] heldBoots) = 2 := by
  refine ⟨?_, by decide, by decide, by decide, by decide, rfl, rfl, by decide, by decide⟩
  intro b hb
  simp only [heldBoots, List.mem_cons, List.mem_singleton, List.not_mem_nil, or_false] at hb
  rcases hb with rfl | rfl
  · refine ⟨fun n => rfl, ?_⟩
    intro i hi
    simp only [List.mem_cons, List.mem_singleton, List.not_mem_nil, or_false] at hi
    rcases hi with rfl | rfl <;> exact ⟨rfl, fun n => rfl⟩
  · refine ⟨fun n => rfl, ?_⟩
    intro i hi
    simp only [List.mem_cons, List.mem_singleton, List.not_mem_nil, or_false] at hi
    rcases hi with rfl | rfl <;> exact ⟨rfl, fun n => rfl⟩

end SmartMailbox
